import Mathlib

/-!
# Glimmerink theme state: a shallow embedding of `assets/js/script.js`

The script keeps the page theme in two places: the `QuantumState` class
(lines 11-27, an observable value with subscribers) and the `QuantumTheme`
class (lines 346-371, the same flip with direct DOM updates).  Both read and
write the `localStorage` key `"quantumTheme"`, and both are wired to the click
of the `.reality-toggle` control.

Modelling conventions.

* JavaScript strings are `String`; the result of `localStorage.getItem` is an
  `Option String` (`none` is `null`).
* A JavaScript exception is a value of `JsError`.  A method that can throw
  returns an `Outcome`: what was thrown (if anything) together with the state
  at that moment, because effects made before a `throw` stay in place.
* `localStorage` is a map from keys to values together with two host
  conditions: whether reads are refused and which writes are refused.
* Listeners in general.  `subscribe` accepts any function, and a listener may
  use the page, `localStorage` and the store itself, `toggleTheme()` included.
  `Script`, `World` and `World.toggleTheme` model this: the body of a listener
  is the tree of the calls it makes, the observers are function references
  resolved by a table, `this.theme` is read anew at every invocation, and a
  nested `toggleTheme()` call uses up call-stack depth.
* Page-only subscribers.  `Observer`, `QuantumState`, `Runtime` and
  `QuantumState.toggleTheme` are the special case in which every listener only
  touches the page, as the one subscriber of the script does
  (`RealityInterface.initTheme`, lines 141-147).  `World.toggleTheme_of` proves
  that the general model restricted to such listeners is this one.  The
  constructor, the flip, and the two controllers of the page are stated here.
* The invocation log (`Runtime.calls`, `World.calls`) is kept for specification
  purposes: it records, for each call, which callback was called, its argument
  and the value stored under `"quantumTheme"` at that moment.
-/

namespace Glimmerink

/-- Exceptions that the modelled code can meet. -/
inductive JsError where
  | securityError
  | quotaExceededError
  | typeError
  | rangeError
  | custom (msg : String)
deriving DecidableEq, Repr

/-- The browser `localStorage`: its content and the host conditions under which
`getItem` and `setItem` throw. -/
structure LocalStorage where
  items : String → Option String
  readFails : Bool
  writeFails : String → String → Bool

/-- The call `localStorage.getItem(key)`: the stored string, `none` for `null`. -/
def LocalStorage.getItem (ls : LocalStorage) (key : String) : Except JsError (Option String) :=
  if ls.readFails then .error .securityError else .ok (ls.items key)

/-- The call `localStorage.setItem(key, value)`. -/
def LocalStorage.setItem (ls : LocalStorage) (key value : String) : Except JsError LocalStorage :=
  if ls.writeFails key value then .error .quotaExceededError
  else .ok { ls with items := fun k => if k = key then some value else ls.items k }

/-- The JavaScript expression `v || d` for `v` a string or `null`: `null` and the
empty string are falsy, every other string is truthy. -/
def jsOr (v : Option String) (d : String) : String :=
  match v with
  | none => d
  | some s => if s = "" then d else s

/-- What a method call left behind: the exception it threw, if any, and the state. -/
structure Outcome (σ : Type) where
  thrown : Option JsError
  state : σ

/-- A page-only subscriber callback `obs`: `id` names the function reference,
`call theme page` is the effect of `obs(theme)` on the page and the exception it
throws, if any.  Such a callback reaches neither the store nor `localStorage`;
`Script` covers the callbacks that do. -/
structure Observer (W : Type) where
  id : Nat
  call : String → W → Option JsError × W

/-- One entry of the invocation log. -/
structure Invocation where
  observer : Nat
  arg : String
  persisted : Option String
deriving DecidableEq, Repr

/-- Everything outside the store object: `localStorage`, the page, and the
invocation log. -/
structure Runtime (W : Type) where
  storage : LocalStorage
  page : W
  calls : List Invocation

/-- The fields of a `QuantumState` instance (script.js lines 12-16). -/
structure QuantumState (W : Type) where
  observers : List (Observer W)
  theme : String
  isAnimating : Bool

/-- `new QuantumState()` (script.js lines 12-16): the read is not guarded, so an
exception of `getItem` leaves the constructor. -/
def QuantumState.constructor {W : Type} (rt : Runtime W) :
    Except JsError (QuantumState W) × Runtime W :=
  match rt.storage.getItem "quantumTheme" with
  | .error e => (.error e, rt)
  | .ok v => (.ok { observers := [], theme := jsOr v "dark", isAnimating := false }, rt)

/-- `subscribe(observer)` (script.js lines 18-20): `this.observers.push(observer)`. -/
def QuantumState.subscribe {W : Type} (q : QuantumState W) (observer : Observer W) :
    QuantumState W :=
  { q with observers := q.observers ++ [observer] }

/-- `this.observers.forEach((obs) => obs(this.theme))` (script.js line 25) for
page-only subscribers, on the observers still to visit: each call is logged,
then run; the first exception ends the loop.  The argument `this.theme` is read
at every call; page-only callbacks do not reach the store, so it is the same
string `theme` throughout.  `World.forEach` is the loop without this
restriction. -/
def QuantumState.forEach {W : Type} (theme : String) :
    List (Observer W) → Runtime W → Outcome (Runtime W)
  | [], rt => ⟨none, rt⟩
  | obs :: rest, rt =>
    let rt1 : Runtime W :=
      { rt with calls := rt.calls ++ [⟨obs.id, theme, rt.storage.items "quantumTheme"⟩] }
    match obs.call theme rt1.page with
    | (some e, page) => ⟨some e, { rt1 with page := page }⟩
    | (none, page) => QuantumState.forEach theme rest { rt1 with page := page }

/-- `toggleTheme()` (script.js lines 22-26) on a store with page-only subscribers. -/
def QuantumState.toggleTheme {W : Type} (q : QuantumState W) (rt : Runtime W) :
    Outcome (QuantumState W × Runtime W) :=
  let q1 : QuantumState W := { q with theme := if q.theme = "dark" then "light" else "dark" }
  match rt.storage.setItem "quantumTheme" q1.theme with
  | .error e => ⟨some e, (q1, rt)⟩
  | .ok st =>
    let r := QuantumState.forEach q1.theme q1.observers { rt with storage := st }
    ⟨r.thrown, (q1, r.state)⟩

/-- The part of the document the theme code touches: the `data-theme` attribute of
the root element, the background colour of the `.neo-nav` element (`none` when
the page has no such element, so that `DOM.nav` is `null`), and the `filter`
style of each `.quantum-avatar img`. -/
structure Dom where
  dataTheme : Option String
  nav : Option String
  avatarFilters : List String
deriving DecidableEq, Repr

/-- The callback subscribed by `RealityInterface.initTheme` (script.js lines
141-147); `DOM.nav.style` throws a `TypeError` when `DOM.nav` is `null`. -/
def themeObserver : Observer Dom where
  id := 0
  call := fun theme dom =>
    let dom1 : Dom := { dom with dataTheme := some theme }
    match dom1.nav with
    | none => (some .typeError, dom1)
    | some _ =>
      (none, { dom1 with
        nav := some (if theme = "dark" then "rgba(26, 26, 46, 0.95)"
                     else "rgba(240, 240, 255, 0.95)") })

/-- The field of a `QuantumTheme` instance (script.js line 348). -/
structure QuantumTheme where
  theme : String
deriving DecidableEq, Repr

/-- `applyImageFilters()` (script.js lines 364-370). -/
def QuantumTheme.applyImageFilters (t : QuantumTheme) (dom : Dom) : Dom :=
  { dom with
    avatarFilters := dom.avatarFilters.map fun _ =>
      if t.theme = "dark" then "none" else "brightness(1.05) contrast(1.1)" }

/-- `init()` (script.js lines 352-355). -/
def QuantumTheme.init (t : QuantumTheme) (dom : Dom) : Dom :=
  t.applyImageFilters { dom with dataTheme := some t.theme }

/-- `new QuantumTheme()` (script.js lines 347-350). -/
def QuantumTheme.constructor (rt : Runtime Dom) : Except JsError QuantumTheme × Runtime Dom :=
  match rt.storage.getItem "quantumTheme" with
  | .error e => (.error e, rt)
  | .ok v =>
    let t : QuantumTheme := { theme := jsOr v "dark" }
    (.ok t, { rt with page := t.init rt.page })

/-- `toggle()` of `QuantumTheme` (script.js lines 357-362). -/
def QuantumTheme.toggle (t : QuantumTheme) (rt : Runtime Dom) :
    Outcome (QuantumTheme × Runtime Dom) :=
  let t1 : QuantumTheme := { theme := if t.theme = "dark" then "light" else "dark" }
  match rt.storage.setItem "quantumTheme" t1.theme with
  | .error e => ⟨some e, (t1, rt)⟩
  | .ok st =>
    ⟨none, (t1, { rt with
      storage := st
      page := t1.applyImageFilters { rt.page with dataTheme := some t1.theme } })⟩

/-- `RealityInterface.initTheme()` (script.js lines 140-151) without the handler
registration, which `click` accounts for: subscribe the callback, then set the
`data-theme` attribute from `quantum.theme`. -/
def initTheme (quantum : QuantumState Dom) (rt : Runtime Dom) :
    QuantumState Dom × Runtime Dom :=
  (quantum.subscribe themeObserver,
   { rt with page := { rt.page with dataTheme := some quantum.theme } })

/-- The two theme controllers of a loaded page and their environment. -/
structure Page where
  quantum : QuantumState Dom
  quantumTheme : QuantumTheme
  rt : Runtime Dom

/-- Loading the script: `const quantum = new QuantumState()` (line 30),
`const quantumTheme = new QuantumTheme()` (line 374), then on `DOMContentLoaded`
`RealityInterface.initTheme()` (line 296).  An exception of a constructor aborts
the script. -/
def loadPage (rt : Runtime Dom) : Except JsError Page :=
  match QuantumState.constructor rt with
  | (.error e, _) => .error e
  | (.ok quantum, rt1) =>
    match QuantumTheme.constructor rt1 with
    | (.error e, _) => .error e
    | (.ok quantumTheme, rt2) =>
      let s := initTheme quantum rt2
      .ok { quantum := s.1, quantumTheme := quantumTheme, rt := s.2 }

/-- One click on `.reality-toggle`.  The handlers run in registration order:
`() => quantumTheme.toggle()` (registered when the script is evaluated, line
377), then `() => quantum.toggleTheme()` (registered on `DOMContentLoaded`, line
149).  An exception of one handler is reported by the browser and does not stop
the other handler. -/
def click (p : Page) : Page :=
  let r1 := p.quantumTheme.toggle p.rt
  let r2 := p.quantum.toggleTheme r1.state.2
  { quantum := r2.state.1, quantumTheme := r1.state.1, rt := r2.state.2 }

/-- The page after `n` clicks. -/
def clicks : Nat → Page → Page
  | 0, p => p
  | n + 1, p => clicks n (click p)

/-- Whether the page is out of step: the two in-memory themes differ from each
other, or one of them differs from the value stored under `"quantumTheme"`. -/
def Page.desynchronized (p : Page) : Prop :=
  p.quantum.theme ≠ p.quantumTheme.theme ∨
  p.rt.storage.items "quantumTheme" ≠ some p.quantum.theme ∨
  p.rt.storage.items "quantumTheme" ≠ some p.quantumTheme.theme

instance (p : Page) : Decidable p.desynchronized := by
  unfold Page.desynchronized
  infer_instance

/-- A call made by client code on the store. -/
inductive StoreCall (W : Type) where
  | subscribe (observer : Observer W)
  | toggle

/-- The effect of one client call.  An exception of `toggleTheme` goes to the
caller; the store and its environment stay as they were at the throw. -/
def StoreCall.apply {W : Type} :
    StoreCall W → QuantumState W × Runtime W → QuantumState W × Runtime W
  | .subscribe observer, s => (s.1.subscribe observer, s.2)
  | .toggle, s => (s.1.toggleTheme s.2).state

/-- The effect of a sequence of client calls, first call first. -/
def runCalls {W : Type} :
    List (StoreCall W) → QuantumState W × Runtime W → QuantumState W × Runtime W
  | [], s => s
  | c :: cs, s => runCalls cs (c.apply s)

/-- The state after `n` successive `toggleTheme()` calls. -/
def toggleTimes {W : Type} :
    Nat → QuantumState W × Runtime W → QuantumState W × Runtime W
  | 0, s => s
  | n + 1, s => toggleTimes n (s.1.toggleTheme s.2).state

/-- Whether a call sequence contains a `toggle`. -/
def hasToggle {W : Type} : List (StoreCall W) → Bool
  | [] => false
  | .toggle :: _ => true
  | .subscribe _ :: cs => hasToggle cs

/-- A working `localStorage` whose only possible entry is `"quantumTheme"`. -/
def storageWith (v : Option String) : LocalStorage where
  items := fun k => if k = "quantumTheme" then v else none
  readFails := false
  writeFails := fun _ _ => false

/-- A `localStorage` holding `v` under `"quantumTheme"` that refuses every read. -/
def storageUnreadable (v : Option String) : LocalStorage where
  items := fun k => if k = "quantumTheme" then v else none
  readFails := true
  writeFails := fun _ _ => false

/-- A `localStorage` holding `v` under `"quantumTheme"` that refuses every write. -/
def storageFull (v : Option String) : LocalStorage where
  items := fun k => if k = "quantumTheme" then v else none
  readFails := false
  writeFails := fun _ _ => true

/-- A page without any of the elements the theme code styles. -/
def emptyDom : Dom := { dataTheme := none, nav := none, avatarFilters := [] }

/-- A page with a navigation bar and two avatar images. -/
def sampleDom : Dom := { dataTheme := none, nav := some "", avatarFilters := ["", ""] }

/-- A subscriber that records nothing and never throws. -/
def quietObserver (W : Type) (id : Nat) : Observer W where
  id := id
  call := fun _ page => (none, page)

/-! ## Listeners that use the store -/

/-- The body of a listener, as the tree of the calls it makes: on the page, on
`localStorage`, and on the public surface of the store `quantum`, which is
reading `theme`, `toggleTheme()` and `subscribe(f)`.  The fields of the store
are written by its own methods only.  `W` is the page together with any other
state the listeners keep for themselves.  A continuation that takes an
`Option JsError` stands for `try`/`catch` around the call: it receives what the
call threw, and rethrows it when the body has no `try`. -/
inductive Script (W : Type) where
  | done
  | throw (e : JsError)
  | readPage (k : W → Script W)
  | writePage (page : W) (k : Script W)
  | readTheme (k : String → Script W)
  | toggleTheme (k : Option JsError → Script W)
  | subscribe (observer : Nat) (k : Script W)
  | getItem (key : String) (k : Except JsError (Option String) → Script W)
  | setItem (key value : String) (k : Option JsError → Script W)
  | removeItem (key : String) (k : Script W)

/-- A listener function `(theme) => ...`: its body for each argument. -/
abbrev Listener (W : Type) := String → Script W

/-- The state a running script can reach: the fields of `quantum`, with
`observers` holding function references, `localStorage`, the page, and the
invocation log. -/
structure World (W : Type) where
  theme : String
  observers : List Nat
  isAnimating : Bool
  storage : LocalStorage
  page : W
  calls : List Invocation

/-- `localStorage.removeItem(key)`. -/
def LocalStorage.removeItem (ls : LocalStorage) (key : String) : LocalStorage :=
  { ls with items := fun k => if k = key then none else ls.items k }

/-- Running a listener body; `reenter` is `quantum.toggleTheme` as the body can
call it. -/
def Script.run {W : Type} (reenter : World W → Outcome (World W)) :
    Script W → World W → Outcome (World W)
  | .done, s => ⟨none, s⟩
  | .throw e, s => ⟨some e, s⟩
  | .readPage k, s => Script.run reenter (k s.page) s
  | .writePage page k, s => Script.run reenter k { s with page := page }
  | .readTheme k, s => Script.run reenter (k s.theme) s
  | .toggleTheme k, s =>
    let r := reenter s
    Script.run reenter (k r.thrown) r.state
  | .subscribe observer k, s =>
    Script.run reenter k { s with observers := s.observers ++ [observer] }
  | .getItem key k, s => Script.run reenter (k (s.storage.getItem key)) s
  | .setItem key value k, s =>
    match s.storage.setItem key value with
    | .error e => Script.run reenter (k (some e)) s
    | .ok st => Script.run reenter (k none) { s with storage := st }
  | .removeItem key k, s =>
    Script.run reenter k { s with storage := s.storage.removeItem key }

/-- `subscribe(observer)` (script.js lines 18-20) on a function reference. -/
def World.subscribe {W : Type} (s : World W) (observer : Nat) : World W :=
  { s with observers := s.observers ++ [observer] }

/-- `this.observers.forEach((obs) => obs(this.theme))` (script.js line 25) on the
references still to visit.  `forEach` visits the indices below the length it
read when it started, and `subscribe` only appends, so these are the observers
present at the start.  `this.theme` is read anew at every call. -/
def World.forEach {W : Type} (funs : Nat → Listener W)
    (reenter : World W → Outcome (World W)) : List Nat → World W → Outcome (World W)
  | [], s => ⟨none, s⟩
  | obs :: rest, s =>
    let s1 : World W :=
      { s with calls := s.calls ++ [⟨obs, s.theme, s.storage.items "quantumTheme"⟩] }
    let r := (funs obs s.theme).run reenter s1
    match r.thrown with
    | some e => ⟨some e, r.state⟩
    | none => World.forEach funs reenter rest r.state

/-- `toggleTheme()` (script.js lines 22-26) with listeners that may call it again.
`depth` is the room left on the call stack: a call with no room throws a
`RangeError` before doing anything. -/
def World.toggleTheme {W : Type} (funs : Nat → Listener W) : Nat → World W → Outcome (World W)
  | 0, s => ⟨some .rangeError, s⟩
  | depth + 1, s =>
    let s1 : World W := { s with theme := if s.theme = "dark" then "light" else "dark" }
    match s1.storage.setItem "quantumTheme" s1.theme with
    | .error e => ⟨some e, s1⟩
    | .ok st =>
      World.forEach funs (World.toggleTheme funs depth) s1.observers { s1 with storage := st }

/-- The observable part of a log entry: which function was called with what. -/
def Invocation.call (c : Invocation) : Nat × String := (c.observer, c.arg)

/-- The body never calls `quantum.toggleTheme()`, on any path. -/
def Script.NoToggle {W : Type} : Script W → Prop
  | .done => True
  | .throw _ => True
  | .readPage k => ∀ page, (k page).NoToggle
  | .writePage _ k => k.NoToggle
  | .readTheme k => ∀ theme, (k theme).NoToggle
  | .toggleTheme _ => False
  | .subscribe _ k => k.NoToggle
  | .getItem _ k => ∀ r, (k r).NoToggle
  | .setItem _ _ k => ∀ r, (k r).NoToggle
  | .removeItem _ k => k.NoToggle

/-- The body never writes or removes the `localStorage` entry `key` itself, on any
path. -/
def Script.NoWrite {W : Type} (key : String) : Script W → Prop
  | .done => True
  | .throw _ => True
  | .readPage k => ∀ page, (k page).NoWrite key
  | .writePage _ k => k.NoWrite key
  | .readTheme k => ∀ theme, (k theme).NoWrite key
  | .toggleTheme k => ∀ r, (k r).NoWrite key
  | .subscribe _ k => k.NoWrite key
  | .getItem _ k => ∀ r, (k r).NoWrite key
  | .setItem key2 _ k => key2 ≠ key ∧ ∀ r, (k r).NoWrite key
  | .removeItem key2 k => key2 ≠ key ∧ k.NoWrite key

/-- A page-only subscriber as a listener body: read the page, write the page it
produces, throw what it throws. -/
def Observer.script {W : Type} (o : Observer W) : Listener W := fun arg =>
  .readPage fun page =>
    .writePage (o.call arg page).2
      (match (o.call arg page).1 with
       | some e => .throw e
       | none => .done)

/-- A store with page-only subscribers and its environment, as a `World`: the
observers become their references. -/
def World.of {W : Type} (q : QuantumState W) (rt : Runtime W) : World W where
  theme := q.theme
  observers := q.observers.map (fun o => o.id)
  isAnimating := q.isAnimating
  storage := rt.storage
  page := rt.page
  calls := rt.calls

/-- A working `localStorage` holding `v` under `"quantumTheme"` on a host that
refuses to store the value `bad`. -/
def storageRejecting (v : Option String) (bad : String) : LocalStorage where
  items := fun k => if k = "quantumTheme" then v else none
  readFails := false
  writeFails := fun _ value => decide (value = bad)

/-- Sample listeners, by reference.
* 1: `(t) => { if (t === "light") quantum.toggleTheme(); }`
* 2: `(t) => {}`
* 3: `(t) => { throw new Error("listener failed"); }`
* 4: `(t) => { if (t === "light") { try { quantum.toggleTheme(); } catch {} } }`
* 5: `(t) => { try { quantum.toggleTheme(); } catch {} }`
* 6: `(t) => { localStorage.removeItem("quantumTheme"); }`
* 7: `(t) => { localStorage.setItem("visits", t); quantum.subscribe(f2); }`
* every other reference: `(t) => {}` -/
def sampleListeners : Nat → Listener Unit
  | 1 => fun t =>
    if t = "light" then
      .toggleTheme fun r =>
        match r with
        | some e => .throw e
        | none => .done
    else .done
  | 2 => fun _ => .done
  | 3 => fun _ => .throw (.custom "listener failed")
  | 4 => fun t => if t = "light" then .toggleTheme (fun _ => .done) else .done
  | 5 => fun _ => .toggleTheme (fun _ => .done)
  | 6 => fun _ => .removeItem "quantumTheme" .done
  | 7 => fun t => .setItem "visits" t (fun _ => .subscribe 2 .done)
  | _ => fun _ => .done

/-- The page loaded from a working storage holding `"dark"` on `sampleDom`. -/
def darkPage : Page where
  quantum := { observers := [themeObserver], theme := "dark", isAnimating := false }
  quantumTheme := { theme := "dark" }
  rt :=
    { storage := storageWith (some "dark")
      page := { dataTheme := some "dark", nav := some "", avatarFilters := ["none", "none"] }
      calls := [] }
/-! ## Initialisation -/

/-- The constructor only reads: the environment is returned as it was. -/
theorem QuantumState.constructor_runtime {W : Type} (rt : Runtime W) :
    (QuantumState.constructor rt).2 = rt := by
  unfold QuantumState.constructor
  cases rt.storage.getItem "quantumTheme" <;> rfl

/-- The constructor on a successful read. -/
theorem QuantumState.constructor_ok {W : Type} (rt : Runtime W) (v : Option String)
    (h : rt.storage.getItem "quantumTheme" = .ok v) :
    QuantumState.constructor rt = (.ok ⟨[], jsOr v "dark", false⟩, rt) := by
  unfold QuantumState.constructor
  rw [h]

/-- The constructor on a failed read. -/
theorem QuantumState.constructor_error {W : Type} (rt : Runtime W) (e : JsError)
    (h : rt.storage.getItem "quantumTheme" = .error e) :
    QuantumState.constructor rt = (.error e, rt) := by
  unfold QuantumState.constructor
  rw [h]

/-- C1, counterexample: with `"blue"` stored under the key (a string that is
neither `"dark"` nor `"light"`), the constructor yields a store whose theme is
`"blue"`, not `"dark"`. -/
theorem constructor_adopts_blue :
    "blue" ≠ "dark" ∧ "blue" ≠ "light" ∧
    QuantumState.constructor (⟨storageWith (some "blue"), (), []⟩ : Runtime Unit)
      = (.ok ⟨[], "blue", false⟩, ⟨storageWith (some "blue"), (), []⟩) ∧
    (⟨[], "blue", false⟩ : QuantumState Unit).theme ≠ "dark" := by
  refine ⟨by decide, by decide, ?_, by decide⟩
  exact QuantumState.constructor_ok _ (some "blue") rfl

/-- C1, amended: for every stored string `s`, in particular one other than `"dark"`
and `"light"`, the constructor yields theme `"dark"` when `s` is the empty string
and adopts `s` itself as the theme when `s` is not empty; the store has no
observers and the storage is untouched. -/
theorem constructor_unrecognised_value {W : Type} (rt : Runtime W) (s : String)
    (hread : rt.storage.getItem "quantumTheme" = .ok (some s)) :
    (s = "" → QuantumState.constructor rt = (.ok ⟨[], "dark", false⟩, rt)) ∧
    (s ≠ "" → QuantumState.constructor rt = (.ok ⟨[], s, false⟩, rt)) := by
  have hc := QuantumState.constructor_ok rt (some s) hread
  constructor
  · intro h
    rw [hc]
    simp [jsOr, h]
  · intro h
    rw [hc]
    simp [jsOr, h]

/-- Concrete instance at the stored strings `""` and
`"blue"`. -/
theorem constructor_unrecognised_value_witness :
    QuantumState.constructor (⟨storageWith (some ""), (), []⟩ : Runtime Unit)
      = (.ok ⟨[], "dark", false⟩, ⟨storageWith (some ""), (), []⟩) ∧
    QuantumState.constructor (⟨storageWith (some "blue"), (), []⟩ : Runtime Unit)
      = (.ok ⟨[], "blue", false⟩, ⟨storageWith (some "blue"), (), []⟩) :=
  ⟨(constructor_unrecognised_value ⟨storageWith (some ""), (), []⟩ "" rfl).1 rfl,
   (constructor_unrecognised_value ⟨storageWith (some "blue"), (), []⟩ "blue" rfl).2
      (by decide)⟩

/-- C7, counterexample: when the read of `"quantumTheme"` throws, the constructor
throws the same exception; it does not return a store with theme `"dark"`. -/
theorem constructor_read_failure_escapes :
    (storageUnreadable none).getItem "quantumTheme" = .error .securityError ∧
    (QuantumState.constructor (⟨storageUnreadable none, (), []⟩ : Runtime Unit)).1
      = .error .securityError ∧
    (QuantumState.constructor (⟨storageUnreadable none, (), []⟩ : Runtime Unit)).1
      ≠ .ok ⟨[], "dark", false⟩ := by
  have h : QuantumState.constructor (⟨storageUnreadable none, (), []⟩ : Runtime Unit)
      = (.error .securityError, ⟨storageUnreadable none, (), []⟩) :=
    QuantumState.constructor_error _ _ rfl
  refine ⟨rfl, ?_, ?_⟩
  · rw [h]
  · rw [h]
    intro hne
    cases hne

/-- C7, amended: when the read of `"quantumTheme"` throws `e`, the constructor
does not catch it: `e` leaves the constructor, no store is produced and the
environment is as before. -/
theorem constructor_propagates_read_error {W : Type} (rt : Runtime W) (e : JsError)
    (hread : rt.storage.getItem "quantumTheme" = .error e) :
    QuantumState.constructor rt = (.error e, rt) ∧
    ∀ q, (QuantumState.constructor rt).1 ≠ .ok q := by
  have h := QuantumState.constructor_error rt e hread
  refine ⟨h, ?_⟩
  intro q hq
  rw [h] at hq
  cases hq

/-- Concrete instance on a storage that refuses reads
while holding `"light"`. -/
theorem constructor_propagates_read_error_witness :
    QuantumState.constructor (⟨storageUnreadable (some "light"), emptyDom, []⟩ : Runtime Dom)
      = (.error .securityError, ⟨storageUnreadable (some "light"), emptyDom, []⟩) :=
  (constructor_propagates_read_error ⟨storageUnreadable (some "light"), emptyDom, []⟩
    .securityError rfl).1

/-- C8: when the read finds no value the constructor yields theme `"dark"`; when it
finds exactly `"light"` it yields `"light"`; when it finds exactly `"dark"` it
yields `"dark"`.  In each case the store has no observers and the environment,
storage included, is returned unchanged. -/
theorem constructor_from_storage {W : Type} (rt : Runtime W) :
    (rt.storage.getItem "quantumTheme" = .ok none →
      QuantumState.constructor rt = (.ok ⟨[], "dark", false⟩, rt)) ∧
    (rt.storage.getItem "quantumTheme" = .ok (some "light") →
      QuantumState.constructor rt = (.ok ⟨[], "light", false⟩, rt)) ∧
    (rt.storage.getItem "quantumTheme" = .ok (some "dark") →
      QuantumState.constructor rt = (.ok ⟨[], "dark", false⟩, rt)) := by
  refine ⟨?_, ?_, ?_⟩ <;> intro h <;> rw [QuantumState.constructor_ok rt _ h] <;> rfl

/-- Concrete instance on the three storage contents. -/
theorem constructor_from_storage_witness :
    QuantumState.constructor (⟨storageWith none, sampleDom, []⟩ : Runtime Dom)
      = (.ok ⟨[], "dark", false⟩, ⟨storageWith none, sampleDom, []⟩) ∧
    QuantumState.constructor (⟨storageWith (some "light"), sampleDom, []⟩ : Runtime Dom)
      = (.ok ⟨[], "light", false⟩, ⟨storageWith (some "light"), sampleDom, []⟩) ∧
    QuantumState.constructor (⟨storageWith (some "dark"), sampleDom, []⟩ : Runtime Dom)
      = (.ok ⟨[], "dark", false⟩, ⟨storageWith (some "dark"), sampleDom, []⟩) :=
  ⟨(constructor_from_storage ⟨storageWith none, sampleDom, []⟩).1 rfl,
   (constructor_from_storage ⟨storageWith (some "light"), sampleDom, []⟩).2.1 rfl,
   (constructor_from_storage ⟨storageWith (some "dark"), sampleDom, []⟩).2.2 rfl⟩

/-! ## Toggling -/

/-- The theme after `toggleTheme()`, whether or not the call throws. -/
theorem QuantumState.toggleTheme_theme {W : Type} (q : QuantumState W) (rt : Runtime W) :
    (q.toggleTheme rt).state.1.theme = if q.theme = "dark" then "light" else "dark" := by
  unfold QuantumState.toggleTheme
  simp only []
  split <;> rfl

/-- The observers are not changed by `toggleTheme()`. -/
theorem QuantumState.toggleTheme_observers {W : Type} (q : QuantumState W) (rt : Runtime W) :
    (q.toggleTheme rt).state.1.observers = q.observers := by
  unfold QuantumState.toggleTheme
  simp only []
  split <;> rfl

/-- The flipped theme is always one of the two valid themes. -/
theorem flipped_valid (t : String) :
    (if t = "dark" then "light" else "dark") = "dark" ∨
    (if t = "dark" then "light" else "dark") = "light" := by
  by_cases h : t = "dark"
  · right
    simp [h]
  · left
    simp [h]

/-- One round of the notification loop. -/
theorem QuantumState.forEach_cons {W : Type} (theme : String) (o : Observer W)
    (rest : List (Observer W)) (rt : Runtime W) :
    QuantumState.forEach theme (o :: rest) rt =
      match o.call theme rt.page with
      | (some e, page) =>
        ⟨some e, { storage := rt.storage, page := page,
                   calls := rt.calls ++ [⟨o.id, theme, rt.storage.items "quantumTheme"⟩] }⟩
      | (none, page) =>
        QuantumState.forEach theme rest
          { storage := rt.storage, page := page,
            calls := rt.calls ++ [⟨o.id, theme, rt.storage.items "quantumTheme"⟩] } := rfl

/-- The notification loop never writes to the storage. -/
theorem QuantumState.forEach_storage {W : Type} (theme : String) (os : List (Observer W))
    (rt : Runtime W) : (QuantumState.forEach theme os rt).state.storage = rt.storage := by
  induction os generalizing rt with
  | nil => rfl
  | cons o rest ih =>
    rw [QuantumState.forEach_cons]
    rcases hcall : o.call theme rt.page with ⟨_ | e, page⟩
    · simp only []
      rw [ih]
    · rfl

/-- A refused write. -/
theorem LocalStorage.setItem_refused (ls : LocalStorage) (key value : String)
    (h : ls.writeFails key value = true) :
    ls.setItem key value = .error .quotaExceededError := by
  simp [LocalStorage.setItem, h]

/-- An accepted write. -/
theorem LocalStorage.setItem_accepted (ls : LocalStorage) (key value : String)
    (h : ls.writeFails key value = false) :
    ls.setItem key value =
      .ok { ls with items := fun k => if k = key then some value else ls.items k } := by
  simp [LocalStorage.setItem, h]

/-- After a write that did not throw, the key holds the written value. -/
theorem LocalStorage.setItem_items (ls st : LocalStorage) (key value : String)
    (h : ls.setItem key value = .ok st) : st.items key = some value := by
  unfold LocalStorage.setItem at h
  split at h
  · cases h
  · cases h
    simp

/-- The outcome of `toggleTheme()` when the write throws. -/
theorem QuantumState.toggleTheme_write_error {W : Type} (q : QuantumState W) (rt : Runtime W)
    (e : JsError)
    (h : rt.storage.setItem "quantumTheme" (if q.theme = "dark" then "light" else "dark")
      = .error e) :
    q.toggleTheme rt =
      ⟨some e, ({ q with theme := if q.theme = "dark" then "light" else "dark" }, rt)⟩ := by
  unfold QuantumState.toggleTheme
  simp only []
  rw [h]

/-- The outcome of `toggleTheme()` when the write does not throw. -/
theorem QuantumState.toggleTheme_write_ok {W : Type} (q : QuantumState W) (rt : Runtime W)
    (st : LocalStorage)
    (h : rt.storage.setItem "quantumTheme" (if q.theme = "dark" then "light" else "dark")
      = .ok st) :
    q.toggleTheme rt =
      ⟨(QuantumState.forEach (if q.theme = "dark" then "light" else "dark") q.observers
          { rt with storage := st }).thrown,
       ({ q with theme := if q.theme = "dark" then "light" else "dark" },
        (QuantumState.forEach (if q.theme = "dark" then "light" else "dark") q.observers
          { rt with storage := st }).state)⟩ := by
  unfold QuantumState.toggleTheme
  simp only []
  rw [h]

/-- The value stored under the key after `toggleTheme()`: the new theme, or, when
the write threw, what was stored before. -/
theorem QuantumState.toggleTheme_persisted {W : Type} (q : QuantumState W) (rt : Runtime W) :
    (q.toggleTheme rt).state.2.storage.items "quantumTheme"
        = some (q.toggleTheme rt).state.1.theme ∨
    (q.toggleTheme rt).state.2.storage.items "quantumTheme"
        = rt.storage.items "quantumTheme" := by
  rcases hset : rt.storage.setItem "quantumTheme"
      (if q.theme = "dark" then "light" else "dark") with e | st
  · right
    rw [QuantumState.toggleTheme_write_error q rt e hset]
  · left
    rw [QuantumState.toggleTheme_write_ok q rt st hset]
    simp only []
    rw [QuantumState.forEach_storage]
    exact LocalStorage.setItem_items _ _ _ _ hset

/-- A `toggleTheme()` that returns normally has written the new theme. -/
theorem QuantumState.toggleTheme_persisted_of_return {W : Type} (q : QuantumState W)
    (rt : Runtime W) (h : (q.toggleTheme rt).thrown = none) :
    (q.toggleTheme rt).state.2.storage.items "quantumTheme"
        = some (q.toggleTheme rt).state.1.theme := by
  rcases hset : rt.storage.setItem "quantumTheme"
      (if q.theme = "dark" then "light" else "dark") with e | st
  · rw [QuantumState.toggleTheme_write_error q rt e hset] at h
    cases h
  · rw [QuantumState.toggleTheme_write_ok q rt st hset]
    simp only []
    rw [QuantumState.forEach_storage]
    exact LocalStorage.setItem_items _ _ _ _ hset

/-- The effect of a `toggle` call. -/
theorem StoreCall.apply_toggle {W : Type} (s : QuantumState W × Runtime W) :
    StoreCall.apply .toggle s = (s.1.toggleTheme s.2).state := rfl

/-- The first call of a sequence is applied first. -/
theorem runCalls_cons {W : Type} (c : StoreCall W) (cs : List (StoreCall W))
    (s : QuantumState W × Runtime W) : runCalls (c :: cs) s = runCalls cs (c.apply s) := rfl

/-- A `toggleTheme()` whose write is accepted has written the new theme, whether or
not an observer throws afterwards. -/
theorem QuantumState.toggleTheme_persisted_of_accept {W : Type} (q : QuantumState W)
    (rt : Runtime W)
    (hw : rt.storage.writeFails "quantumTheme" (if q.theme = "dark" then "light" else "dark")
      = false) :
    (q.toggleTheme rt).state.2.storage.items "quantumTheme"
        = some (q.toggleTheme rt).state.1.theme := by
  have hset := LocalStorage.setItem_accepted rt.storage "quantumTheme" _ hw
  rw [QuantumState.toggleTheme_write_ok q rt _ hset]
  simp only []
  rw [QuantumState.forEach_storage]
  simp

/-- Client calls keep a valid theme valid. -/
theorem runCalls_theme_valid {W : Type} (cs : List (StoreCall W))
    (s : QuantumState W × Runtime W) (h : s.1.theme = "dark" ∨ s.1.theme = "light") :
    (runCalls cs s).1.theme = "dark" ∨ (runCalls cs s).1.theme = "light" := by
  induction cs generalizing s with
  | nil => exact h
  | cons c cs ih =>
    apply ih
    cases c with
    | subscribe o => exact h
    | toggle =>
      rw [StoreCall.apply_toggle, QuantumState.toggleTheme_theme]
      exact flipped_valid _

/-- After a call sequence that contains a toggle the theme is valid. -/
theorem runCalls_theme_valid_of_toggle {W : Type} (cs : List (StoreCall W))
    (s : QuantumState W × Runtime W) (h : hasToggle cs = true) :
    (runCalls cs s).1.theme = "dark" ∨ (runCalls cs s).1.theme = "light" := by
  induction cs generalizing s with
  | nil => cases h
  | cons c cs ih =>
    cases c with
    | subscribe o => exact ih _ h
    | toggle =>
      rw [runCalls_cons]
      apply runCalls_theme_valid
      rw [StoreCall.apply_toggle, QuantumState.toggleTheme_theme]
      exact flipped_valid _

/-- Client calls keep a valid stored value valid. -/
theorem runCalls_persisted_valid {W : Type} (cs : List (StoreCall W))
    (s : QuantumState W × Runtime W)
    (h : s.2.storage.items "quantumTheme" = some "dark" ∨
         s.2.storage.items "quantumTheme" = some "light") :
    (runCalls cs s).2.storage.items "quantumTheme" = some "dark" ∨
    (runCalls cs s).2.storage.items "quantumTheme" = some "light" := by
  induction cs generalizing s with
  | nil => exact h
  | cons c cs ih =>
    apply ih
    cases c with
    | subscribe o => exact h
    | toggle =>
      rw [StoreCall.apply_toggle]
      rcases QuantumState.toggleTheme_persisted s.1 s.2 with hp | hp
      · rw [hp, QuantumState.toggleTheme_theme]
        rcases flipped_valid s.1.theme with hv | hv
        · left
          rw [hv]
        · right
          rw [hv]
      · rw [hp]
        exact h

/-- C2, counterexample: from a storage holding `"blue"` the constructor yields a
store which, after a `subscribe` call, still has theme `"blue"`: a reachable
state whose theme is neither `"dark"` nor `"light"`. -/
theorem reachable_theme_blue :
    QuantumState.constructor (⟨storageWith (some "blue"), (), []⟩ : Runtime Unit)
      = (.ok ⟨[], "blue", false⟩, ⟨storageWith (some "blue"), (), []⟩) ∧
    (runCalls [.subscribe (quietObserver Unit 1)]
      ((⟨[], "blue", false⟩ : QuantumState Unit), ⟨storageWith (some "blue"), (), []⟩)).1.theme
      = "blue" ∧
    "blue" ≠ "dark" ∧ "blue" ≠ "light" :=
  ⟨QuantumState.constructor_ok _ (some "blue") rfl, rfl, by decide, by decide⟩

/-- C2, amended: let the constructor read `v` under the key and let any sequence of
`subscribe` and `toggle` calls follow.  If `v` is absent, empty, `"dark"` or
`"light"`, or if the sequence contains at least one `toggle`, then the
constructor returns a store and the theme reached is `"dark"` or `"light"`.
(The theme is a string in every state: the field is never `null`.) -/
theorem reachable_theme_valid {W : Type} (rt : Runtime W) (v : Option String)
    (cs : List (StoreCall W))
    (hread : rt.storage.getItem "quantumTheme" = .ok v)
    (h : v = none ∨ v = some "" ∨ v = some "dark" ∨ v = some "light" ∨ hasToggle cs = true) :
    ∃ q0, QuantumState.constructor rt = (.ok q0, rt) ∧
      ((runCalls cs (q0, rt)).1.theme = "dark" ∨ (runCalls cs (q0, rt)).1.theme = "light") := by
  refine ⟨⟨[], jsOr v "dark", false⟩, QuantumState.constructor_ok rt v hread, ?_⟩
  rcases h with h | h | h | h | h
  · exact runCalls_theme_valid _ _ (Or.inl (by rw [h]; rfl))
  · exact runCalls_theme_valid _ _ (Or.inl (by rw [h]; rfl))
  · exact runCalls_theme_valid _ _ (Or.inl (by rw [h]; rfl))
  · exact runCalls_theme_valid _ _ (Or.inr (by rw [h]; rfl))
  · exact runCalls_theme_valid_of_toggle _ _ h

/-- Concrete instance: from a storage holding `"blue"`, after
subscribing an observer and toggling once, the theme is valid. -/
theorem reachable_theme_valid_witness :
    ∃ q0, QuantumState.constructor (⟨storageWith (some "blue"), (), []⟩ : Runtime Unit)
        = (.ok q0, ⟨storageWith (some "blue"), (), []⟩) ∧
      ((runCalls [.subscribe (quietObserver Unit 1), .toggle]
          (q0, ⟨storageWith (some "blue"), (), []⟩)).1.theme = "dark" ∨
       (runCalls [.subscribe (quietObserver Unit 1), .toggle]
          (q0, ⟨storageWith (some "blue"), (), []⟩)).1.theme = "light") :=
  reachable_theme_valid ⟨storageWith (some "blue"), (), []⟩ (some "blue")
    [.subscribe (quietObserver Unit 1), .toggle] rfl
    (Or.inr (Or.inr (Or.inr (Or.inr rfl))))

/-- The theme after `n` toggles, from either valid theme. -/
theorem toggleTimes_theme {W : Type} (n : Nat) (s : QuantumState W × Runtime W) :
    (s.1.theme = "dark" →
      (toggleTimes n s).1.theme = if n % 2 = 0 then "dark" else "light") ∧
    (s.1.theme = "light" →
      (toggleTimes n s).1.theme = if n % 2 = 0 then "light" else "dark") := by
  induction n generalizing s with
  | zero => exact ⟨fun h => by simpa [toggleTimes] using h, fun h => by simpa [toggleTimes] using h⟩
  | succ n ih =>
    have hstep : toggleTimes (n + 1) s = toggleTimes n (s.1.toggleTheme s.2).state := rfl
    have hth := QuantumState.toggleTheme_theme s.1 s.2
    rw [hstep]
    constructor
    · intro h
      rw [h] at hth
      rw [(ih _).2 (by simpa using hth)]
      rcases Nat.mod_two_eq_zero_or_one n with hn | hn
      · have : (n + 1) % 2 = 1 := by omega
        simp [hn, this]
      · have : (n + 1) % 2 = 0 := by omega
        simp [hn, this]
    · intro h
      rw [h] at hth
      rw [(ih _).1 (by simpa using hth)]
      rcases Nat.mod_two_eq_zero_or_one n with hn | hn
      · have : (n + 1) % 2 = 1 := by omega
        simp [hn, this]
      · have : (n + 1) % 2 = 0 := by omega
        simp [hn, this]

/-- C4: starting from theme `"dark"`, after `n` successive `toggleTheme()` calls
the theme is `"dark"` when `n` is even and `"light"` when `n` is odd; starting
from `"light"` it is `"light"` when `n` is even and `"dark"` when `n` is odd; and
two calls restore either valid theme.  This holds whether or not the calls
throw. -/
theorem toggleTimes_parity {W : Type} (q : QuantumState W) (rt : Runtime W) (n : Nat) :
    (q.theme = "dark" →
      (toggleTimes n (q, rt)).1.theme = if n % 2 = 0 then "dark" else "light") ∧
    (q.theme = "light" →
      (toggleTimes n (q, rt)).1.theme = if n % 2 = 0 then "light" else "dark") ∧
    (q.theme = "dark" ∨ q.theme = "light" →
      ((q.toggleTheme rt).state.1.toggleTheme (q.toggleTheme rt).state.2).state.1.theme
        = q.theme) := by
  refine ⟨(toggleTimes_theme n (q, rt)).1, (toggleTimes_theme n (q, rt)).2, ?_⟩
  intro h
  rw [QuantumState.toggleTheme_theme, QuantumState.toggleTheme_theme]
  rcases h with h | h <;> rw [h] <;> decide

/-- Concrete instance: three toggles from `"dark"` give `"light"`, four
toggles from `"light"` give `"light"`, two toggles from `"light"` give `"light"`;
the storage refuses every write in the first case. -/
theorem toggleTimes_parity_witness :
    (toggleTimes 3 ((⟨[], "dark", false⟩ : QuantumState Unit),
      ⟨storageFull none, (), []⟩)).1.theme = "light" ∧
    (toggleTimes 4 ((⟨[quietObserver Unit 1], "light", false⟩ : QuantumState Unit),
      ⟨storageWith none, (), []⟩)).1.theme = "light" ∧
    (((⟨[], "light", false⟩ : QuantumState Unit).toggleTheme
        ⟨storageWith none, (), []⟩).state.1.toggleTheme
      ((⟨[], "light", false⟩ : QuantumState Unit).toggleTheme
        ⟨storageWith none, (), []⟩).state.2).state.1.theme = "light" :=
  ⟨(toggleTimes_parity ⟨[], "dark", false⟩ ⟨storageFull none, (), []⟩ 3).1 rfl,
   (toggleTimes_parity ⟨[quietObserver Unit 1], "light", false⟩
      ⟨storageWith none, (), []⟩ 4).2.1 rfl,
   (toggleTimes_parity ⟨[], "light", false⟩ ⟨storageWith none, (), []⟩ 0).2.2 (Or.inr rfl)⟩

/-- The theme after `toggle()` of `QuantumTheme`, whether or not the call throws. -/
theorem QuantumTheme.toggle_theme (t : QuantumTheme) (rt : Runtime Dom) :
    (t.toggle rt).state.1.theme = if t.theme = "dark" then "light" else "dark" := by
  unfold QuantumTheme.toggle
  simp only []
  split <;> rfl

/-- A `toggle()` of `QuantumTheme` that returns normally has written the new theme. -/
theorem QuantumTheme.toggle_persisted_of_return (t : QuantumTheme) (rt : Runtime Dom)
    (h : (t.toggle rt).thrown = none) :
    (t.toggle rt).state.2.storage.items "quantumTheme" = some (t.toggle rt).state.1.theme := by
  unfold QuantumTheme.toggle at h ⊢
  simp only [] at h ⊢
  split
  · rename_i e heq
    rw [heq] at h
    cases h
  · rename_i st heq
    exact LocalStorage.setItem_items _ _ _ _ heq

/-- C10: whatever string the theme field holds, `toggleTheme()` sets it to `"light"`
when it is exactly `"dark"` and to `"dark"` otherwise, and so does `toggle()` of
`QuantumTheme`, whether or not the call throws.  Hence after a call that returns
normally the theme and the stored value are equal and are `"dark"` or `"light"`,
and for `QuantumState` they stay so under every later sequence of calls. -/
theorem toggle_normalises_theme {W : Type} (q : QuantumState W) (rt : Runtime W)
    (t : QuantumTheme) (rtd : Runtime Dom) :
    ((q.theme = "dark" → (q.toggleTheme rt).state.1.theme = "light") ∧
     (q.theme ≠ "dark" → (q.toggleTheme rt).state.1.theme = "dark") ∧
     ((q.toggleTheme rt).thrown = none →
        (q.toggleTheme rt).state.2.storage.items "quantumTheme"
          = some (q.toggleTheme rt).state.1.theme ∧
        ∀ cs : List (StoreCall W),
          ((runCalls cs (q.toggleTheme rt).state).1.theme = "dark" ∨
           (runCalls cs (q.toggleTheme rt).state).1.theme = "light") ∧
          ((runCalls cs (q.toggleTheme rt).state).2.storage.items "quantumTheme" = some "dark" ∨
           (runCalls cs (q.toggleTheme rt).state).2.storage.items "quantumTheme"
             = some "light"))) ∧
    ((t.theme = "dark" → (t.toggle rtd).state.1.theme = "light") ∧
     (t.theme ≠ "dark" → (t.toggle rtd).state.1.theme = "dark") ∧
     ((t.toggle rtd).thrown = none →
        (t.toggle rtd).state.2.storage.items "quantumTheme" = some (t.toggle rtd).state.1.theme ∧
        ((t.toggle rtd).state.1.theme = "dark" ∨ (t.toggle rtd).state.1.theme = "light"))) := by
  refine ⟨⟨?_, ?_, ?_⟩, ⟨?_, ?_, ?_⟩⟩
  · intro h
    rw [QuantumState.toggleTheme_theme]
    simp [h]
  · intro h
    rw [QuantumState.toggleTheme_theme]
    simp [h]
  · intro h
    have hp := QuantumState.toggleTheme_persisted_of_return q rt h
    have hv : (q.toggleTheme rt).state.1.theme = "dark" ∨
        (q.toggleTheme rt).state.1.theme = "light" := by
      rw [QuantumState.toggleTheme_theme]
      exact flipped_valid _
    refine ⟨hp, fun cs => ⟨runCalls_theme_valid cs _ hv, runCalls_persisted_valid cs _ ?_⟩⟩
    rw [hp]
    rcases hv with hv | hv
    · left
      rw [hv]
    · right
      rw [hv]
  · intro h
    rw [QuantumTheme.toggle_theme]
    simp [h]
  · intro h
    rw [QuantumTheme.toggle_theme]
    simp [h]
  · intro h
    refine ⟨QuantumTheme.toggle_persisted_of_return t rtd h, ?_⟩
    rw [QuantumTheme.toggle_theme]
    exact flipped_valid _

/-- Concrete instance: a store and a controller whose theme field
holds `"blue"` both move to `"dark"`, and the stored value follows. -/
theorem toggle_normalises_theme_witness :
    ((⟨[], "blue", false⟩ : QuantumState Dom).toggleTheme
        ⟨storageWith (some "blue"), sampleDom, []⟩).state.1.theme = "dark" ∧
    ((⟨[], "blue", false⟩ : QuantumState Dom).toggleTheme
        ⟨storageWith (some "blue"), sampleDom, []⟩).state.2.storage.items "quantumTheme"
      = some ((⟨[], "blue", false⟩ : QuantumState Dom).toggleTheme
        ⟨storageWith (some "blue"), sampleDom, []⟩).state.1.theme ∧
    ((⟨[], "dark", false⟩ : QuantumState Dom).toggleTheme
        ⟨storageWith (some "dark"), sampleDom, []⟩).state.1.theme = "light" ∧
    ((⟨"blue"⟩ : QuantumTheme).toggle
        ⟨storageWith (some "blue"), sampleDom, []⟩).state.1.theme = "dark" ∧
    ((⟨"dark"⟩ : QuantumTheme).toggle
        ⟨storageWith (some "dark"), sampleDom, []⟩).state.1.theme = "light" ∧
    ((⟨"blue"⟩ : QuantumTheme).toggle
        ⟨storageWith (some "blue"), sampleDom, []⟩).state.2.storage.items "quantumTheme"
      = some ((⟨"blue"⟩ : QuantumTheme).toggle
        ⟨storageWith (some "blue"), sampleDom, []⟩).state.1.theme :=
  ⟨(toggle_normalises_theme (⟨[], "blue", false⟩ : QuantumState Dom)
      ⟨storageWith (some "blue"), sampleDom, []⟩ ⟨"blue"⟩
      ⟨storageWith (some "blue"), sampleDom, []⟩).1.2.1 (by decide),
   ((toggle_normalises_theme (⟨[], "blue", false⟩ : QuantumState Dom)
      ⟨storageWith (some "blue"), sampleDom, []⟩ ⟨"blue"⟩
      ⟨storageWith (some "blue"), sampleDom, []⟩).1.2.2 rfl).1,
   (toggle_normalises_theme (⟨[], "dark", false⟩ : QuantumState Dom)
      ⟨storageWith (some "dark"), sampleDom, []⟩ ⟨"dark"⟩
      ⟨storageWith (some "dark"), sampleDom, []⟩).1.1 rfl,
   (toggle_normalises_theme (⟨[], "blue", false⟩ : QuantumState Dom)
      ⟨storageWith (some "blue"), sampleDom, []⟩ ⟨"blue"⟩
      ⟨storageWith (some "blue"), sampleDom, []⟩).2.2.1 (by decide),
   (toggle_normalises_theme (⟨[], "dark", false⟩ : QuantumState Dom)
      ⟨storageWith (some "dark"), sampleDom, []⟩ ⟨"dark"⟩
      ⟨storageWith (some "dark"), sampleDom, []⟩).2.1 rfl,
   ((toggle_normalises_theme (⟨[], "blue", false⟩ : QuantumState Dom)
      ⟨storageWith (some "blue"), sampleDom, []⟩ ⟨"blue"⟩
      ⟨storageWith (some "blue"), sampleDom, []⟩).2.2.2 rfl).1⟩

/-! ## The two controllers of the page -/

/-- Both controllers of a loaded page start from the theme read from the storage. -/
theorem loadPage_themes (rt : Runtime Dom) (p : Page) (h : loadPage rt = .ok p) :
    p.quantum.theme = jsOr (rt.storage.items "quantumTheme") "dark" ∧
    p.quantumTheme.theme = jsOr (rt.storage.items "quantumTheme") "dark" ∧
    p.rt.storage = rt.storage := by
  unfold loadPage QuantumState.constructor QuantumTheme.constructor LocalStorage.getItem at h
  cases hr : rt.storage.readFails
  · simp [hr] at h
    subst h
    exact ⟨rfl, rfl, rfl⟩
  · simp [hr] at h

/-- One click flips both in-memory themes. -/
theorem click_themes (p : Page) :
    (click p).quantum.theme = (if p.quantum.theme = "dark" then "light" else "dark") ∧
    (click p).quantumTheme.theme
      = (if p.quantumTheme.theme = "dark" then "light" else "dark") :=
  ⟨QuantumState.toggleTheme_theme _ _, QuantumTheme.toggle_theme _ _⟩

/-- The two in-memory themes, once equal, stay equal under every number of clicks,
whatever the storage and the observers do. -/
theorem clicks_themes_agree (n : Nat) (p : Page) (h : p.quantum.theme = p.quantumTheme.theme) :
    (clicks n p).quantum.theme = (clicks n p).quantumTheme.theme := by
  induction n generalizing p with
  | zero => exact h
  | succ n ih =>
    apply ih (click p)
    rw [(click_themes p).1, (click_themes p).2, h]

/-- A write does not change which writes the host refuses. -/
theorem LocalStorage.setItem_writeFails (ls st : LocalStorage) (key value : String)
    (h : ls.setItem key value = .ok st) : st.writeFails = ls.writeFails := by
  cases hw : ls.writeFails key value
  · rw [LocalStorage.setItem_accepted ls key value hw] at h
    cases h
    rfl
  · rw [LocalStorage.setItem_refused ls key value hw] at h
    cases h

/-- The storage after `toggle()` of `QuantumTheme` refuses the same writes. -/
theorem QuantumTheme.toggle_writeFails (t : QuantumTheme) (rt : Runtime Dom) :
    (t.toggle rt).state.2.storage.writeFails = rt.storage.writeFails := by
  rcases hset : rt.storage.setItem "quantumTheme"
      (if t.theme = "dark" then "light" else "dark") with e | st
  · have htog : (t.toggle rt).state.2 = rt := by
      unfold QuantumTheme.toggle
      simp only []
      rw [hset]
    rw [htog]
  · have htog : (t.toggle rt).state.2.storage = st := by
      unfold QuantumTheme.toggle
      simp only []
      rw [hset]
    rw [htog]
    exact LocalStorage.setItem_writeFails _ _ _ _ hset

/-- The storage after `toggleTheme()` refuses the same writes. -/
theorem QuantumState.toggleTheme_writeFails {W : Type} (q : QuantumState W) (rt : Runtime W) :
    (q.toggleTheme rt).state.2.storage.writeFails = rt.storage.writeFails := by
  rcases hset : rt.storage.setItem "quantumTheme"
      (if q.theme = "dark" then "light" else "dark") with e | st
  · rw [QuantumState.toggleTheme_write_error q rt e hset]
  · rw [QuantumState.toggleTheme_write_ok q rt st hset]
    simp only []
    rw [QuantumState.forEach_storage]
    exact LocalStorage.setItem_writeFails _ _ _ _ hset

/-- The storage after a click refuses the same writes. -/
theorem click_writeFails (p : Page) :
    (click p).rt.storage.writeFails = p.rt.storage.writeFails := by
  unfold click
  simp only []
  rw [QuantumState.toggleTheme_writeFails, QuantumTheme.toggle_writeFails]

/-- With equal in-memory themes and a storage that accepts every write, a click
leaves the page in step: the stored value is the common in-memory theme. -/
theorem click_in_step (p : Page) (h : p.quantum.theme = p.quantumTheme.theme)
    (hw : ∀ k v, p.rt.storage.writeFails k v = false) :
    ¬ (click p).desynchronized := by
  have hagree := clicks_themes_agree 1 p h
  have hstored : (click p).rt.storage.items "quantumTheme" = some (click p).quantum.theme := by
    unfold click
    simp only []
    refine QuantumState.toggleTheme_persisted_of_accept _ _ ?_
    rw [QuantumTheme.toggle_writeFails]
    exact hw _ _
  intro hd
  rcases hd with hd | hd | hd
  · exact hd hagree
  · exact hd hstored
  · apply hd
    rw [hstored]
    exact congrArg some hagree

/-- On a page loaded from a storage that accepts every write, the two in-memory
themes and the stored value agree after every positive number of clicks. -/
theorem clicks_in_step (rt : Runtime Dom) (p : Page) (n : Nat) (h : loadPage rt = .ok p)
    (hw : ∀ k v, rt.storage.writeFails k v = false) :
    ¬ (clicks (n + 1) p).desynchronized := by
  obtain ⟨h1, h2, h3⟩ := loadPage_themes rt p h
  have hagree : p.quantum.theme = p.quantumTheme.theme := by rw [h1, h2]
  have hwp : ∀ k v, p.rt.storage.writeFails k v = false := by
    rw [h3]
    exact hw
  clear h h1 h2 h3
  induction n generalizing p with
  | zero => exact click_in_step p hagree hwp
  | succ n ih =>
    apply ih (click p)
    · exact clicks_themes_agree 1 p hagree
    · rw [click_writeFails]
      exact hwp

/-- The page loaded from a working storage that holds a non-empty string is in step:
both in-memory themes are that string. -/
theorem loadPage_in_step (rt : Runtime Dom) (p : Page) (s : String)
    (h : loadPage rt = .ok p) (hs : rt.storage.items "quantumTheme" = some s) (hne : s ≠ "") :
    ¬ p.desynchronized := by
  obtain ⟨h1, h2, h3⟩ := loadPage_themes rt p h
  have hj : jsOr (rt.storage.items "quantumTheme") "dark" = s := by
    rw [hs]
    simp [jsOr, hne]
  rw [hj] at h1 h2
  intro hd
  rcases hd with hd | hd | hd
  · exact hd (by rw [h1, h2])
  · exact hd (by rw [h3, hs, h1])
  · exact hd (by rw [h3, hs, h2])

/-- Clicking once more is clicking after the clicks made so far. -/
theorem clicks_succ (n : Nat) (p : Page) : clicks (n + 1) p = click (clicks n p) := by
  induction n generalizing p with
  | zero => rfl
  | succ n ih => exact ih (click p)

/-- C9, counterexample: both controllers are constructed from a working storage that
holds `"dark"`.  One click, running both handlers, moves both in-memory themes
and the stored value to `"light"`; and after every number of clicks the two
in-memory themes are equal to each other and to the stored value.  No sequence
of clicks desynchronizes this page. -/
theorem dark_page_never_desynchronizes :
    loadPage ⟨storageWith (some "dark"), sampleDom, []⟩ = .ok darkPage ∧
    (clicks 1 darkPage).quantum.theme = "light" ∧
    (clicks 1 darkPage).quantumTheme.theme = "light" ∧
    (clicks 1 darkPage).rt.storage.items "quantumTheme" = some "light" ∧
    ∀ n, ¬ (clicks n darkPage).desynchronized := by
  have hload : loadPage ⟨storageWith (some "dark"), sampleDom, []⟩ = .ok darkPage := rfl
  refine ⟨hload, rfl, rfl, rfl, fun n => ?_⟩
  cases n with
  | zero => exact loadPage_in_step _ _ "dark" hload rfl (by decide)
  | succ n => exact clicks_in_step _ _ n hload (fun _ _ => rfl)

/-- C9, amended: let both controllers be constructed from the same storage and let
every click run both handlers.  Every click flips both in-memory themes, and
after every number of clicks they are equal to each other.  If the storage accepts every write, then after
every positive number of clicks both equal the stored value, and so they do
after any number of clicks when the key held a non-empty string at
construction.  The in-memory themes can differ from the stored value in the
remaining cases: after a click on a storage that refuses the write, and before
the first click when nothing is stored. -/
theorem controllers_stay_in_step (rt : Runtime Dom) (p : Page) (n : Nat)
    (h : loadPage rt = .ok p) :
    (clicks (n + 1) p).quantum.theme
      = (if (clicks n p).quantum.theme = "dark" then "light" else "dark") ∧
    (clicks n p).quantum.theme = (clicks n p).quantumTheme.theme ∧
    ((∀ k v, rt.storage.writeFails k v = false) → ¬ (clicks (n + 1) p).desynchronized) ∧
    ((∀ k v, rt.storage.writeFails k v = false) →
      (∃ s, rt.storage.items "quantumTheme" = some s ∧ s ≠ "") →
      ¬ (clicks n p).desynchronized) ∧
    (∃ (rt2 : Runtime Dom) (p2 : Page),
      loadPage rt2 = .ok p2 ∧ (clicks 1 p2).desynchronized) ∧
    (∃ (rt2 : Runtime Dom) (p2 : Page),
      (∀ k v, rt2.storage.writeFails k v = false) ∧ loadPage rt2 = .ok p2 ∧
      (clicks 0 p2).desynchronized) := by
  obtain ⟨h1, h2, _⟩ := loadPage_themes rt p h
  refine ⟨by rw [clicks_succ]; exact (click_themes _).1,
    clicks_themes_agree n p (by rw [h1, h2]), fun hw => clicks_in_step rt p n h hw,
    ?_, ?_, ?_⟩
  · intro hw hs
    obtain ⟨s, hs, hne⟩ := hs
    cases n with
    | zero => exact loadPage_in_step rt p s h hs hne
    | succ n => exact clicks_in_step rt p n h hw
  · refine ⟨⟨storageFull (some "dark"), sampleDom, []⟩, _, rfl, ?_⟩
    right
    left
    intro hd
    have h2 : some "dark" = some "light" := hd
    exact absurd h2 (by decide)
  · refine ⟨⟨storageWith none, sampleDom, []⟩, _, fun _ _ => rfl, rfl, ?_⟩
    right
    left
    intro hd
    have h2 : (none : Option String) = some "dark" := hd
    cases h2

/-- Concrete instance: the page loaded from a working storage holding `"dark"`,
after three clicks. -/
theorem controllers_stay_in_step_witness :
    (clicks 3 darkPage).quantum.theme = (clicks 3 darkPage).quantumTheme.theme ∧
    ¬ (clicks (3 + 1) darkPage).desynchronized ∧
    ¬ (clicks 3 darkPage).desynchronized :=
  ⟨(controllers_stay_in_step ⟨storageWith (some "dark"), sampleDom, []⟩ darkPage 3 rfl).2.1,
   (controllers_stay_in_step ⟨storageWith (some "dark"), sampleDom, []⟩ darkPage 3 rfl).2.2.1
     (fun _ _ => rfl),
   (controllers_stay_in_step ⟨storageWith (some "dark"), sampleDom, []⟩ darkPage 3 rfl).2.2.2.1
     (fun _ _ => rfl) ⟨"dark", rfl, by decide⟩⟩


/-! ## Listeners that use the store: general facts -/

/-- A write to one key leaves the other keys alone. -/
theorem LocalStorage.setItem_items_other (ls st : LocalStorage) (key value other : String)
    (h : ls.setItem key value = .ok st) (hne : key ≠ other) :
    st.items other = ls.items other := by
  unfold LocalStorage.setItem at h
  split at h
  · cases h
  · cases h
    simp [Ne.symm hne]

/-- What a body that never calls `toggleTheme()` leaves alone: the theme and the
invocation log; the observers can only grow; and a key the body never writes
keeps its value. -/
theorem Script.run_noToggle {W : Type} (reenter : World W → Outcome (World W))
    (sc : Script W) (h : sc.NoToggle) (s : World W) :
    (sc.run reenter s).state.theme = s.theme ∧
    (sc.run reenter s).state.calls = s.calls ∧
    (∃ extra, (sc.run reenter s).state.observers = s.observers ++ extra) ∧
    (∀ key, sc.NoWrite key →
      (sc.run reenter s).state.storage.items key = s.storage.items key) := by
  induction sc generalizing s with
  | done => exact ⟨rfl, rfl, ⟨[], by simp [Script.run]⟩, fun _ _ => rfl⟩
  | throw e => exact ⟨rfl, rfl, ⟨[], by simp [Script.run]⟩, fun _ _ => rfl⟩
  | readPage k ih =>
    obtain ⟨h1, h2, h3, h4⟩ := ih s.page (h s.page) s
    exact ⟨h1, h2, h3, fun key hk => h4 key (hk s.page)⟩
  | writePage page k ih =>
    obtain ⟨h1, h2, h3, h4⟩ := ih h { s with page := page }
    exact ⟨h1, h2, h3, fun key hk => h4 key hk⟩
  | readTheme k ih =>
    obtain ⟨h1, h2, h3, h4⟩ := ih s.theme (h s.theme) s
    exact ⟨h1, h2, h3, fun key hk => h4 key (hk s.theme)⟩
  | toggleTheme k _ => exact absurd h id
  | subscribe observer k ih =>
    obtain ⟨h1, h2, ⟨extra, h3⟩, h4⟩ := ih h { s with observers := s.observers ++ [observer] }
    refine ⟨h1, h2, ⟨observer :: extra, ?_⟩, fun key hk => h4 key hk⟩
    rw [Script.run, h3]
    simp
  | getItem key k ih =>
    obtain ⟨h1, h2, h3, h4⟩ := ih (s.storage.getItem key) (h _) s
    exact ⟨h1, h2, h3, fun key2 hk => h4 key2 (hk _)⟩
  | setItem key value k ih =>
    rcases hset : s.storage.setItem key value with e | st
    · obtain ⟨h1, h2, h3, h4⟩ := ih (some e) (h _) s
      have hrun : (Script.setItem key value k).run reenter s = (k (some e)).run reenter s := by
        rw [Script.run, hset]
      rw [hrun]
      exact ⟨h1, h2, h3, fun key2 hk => h4 key2 (hk.2 _)⟩
    · obtain ⟨h1, h2, h3, h4⟩ := ih none (h _) { s with storage := st }
      have hrun : (Script.setItem key value k).run reenter s
          = (k none).run reenter { s with storage := st } := by
        rw [Script.run, hset]
      rw [hrun]
      refine ⟨h1, h2, h3, fun key2 hk => ?_⟩
      rw [h4 key2 (hk.2 _)]
      exact LocalStorage.setItem_items_other _ _ _ _ _ hset hk.1
  | removeItem key k ih =>
    obtain ⟨h1, h2, h3, h4⟩ := ih h { s with storage := s.storage.removeItem key }
    refine ⟨h1, h2, h3, fun key2 hk => ?_⟩
    rw [Script.run, h4 key2 hk.2]
    simp [LocalStorage.removeItem, Ne.symm hk.1]

/-- One round of the notification loop. -/
theorem World.forEach_step {W : Type} (funs : Nat → Listener W)
    (reenter : World W → Outcome (World W)) (obs : Nat) (rest : List Nat) (s : World W) :
    World.forEach funs reenter (obs :: rest) s =
      match ((funs obs s.theme).run reenter
          { s with calls := s.calls ++ [⟨obs, s.theme, s.storage.items "quantumTheme"⟩] }).thrown
      with
      | some e =>
        ⟨some e, ((funs obs s.theme).run reenter
          { s with calls :=
              s.calls ++ [⟨obs, s.theme, s.storage.items "quantumTheme"⟩] }).state⟩
      | none =>
        World.forEach funs reenter rest ((funs obs s.theme).run reenter
          { s with calls :=
              s.calls ++ [⟨obs, s.theme, s.storage.items "quantumTheme"⟩] }).state := rfl

/-- A loop over `pre ++ rest` whose `pre` part throws nothing continues with `rest`
from the state `pre` left. -/
theorem World.forEach_append {W : Type} (funs : Nat → Listener W)
    (reenter : World W → Outcome (World W)) (pre rest : List Nat) (s : World W)
    (h : (World.forEach funs reenter pre s).thrown = none) :
    World.forEach funs reenter (pre ++ rest) s =
      World.forEach funs reenter rest (World.forEach funs reenter pre s).state := by
  induction pre generalizing s with
  | nil => rfl
  | cons o os ih =>
    rw [List.cons_append, World.forEach_step]
    rw [World.forEach_step] at h ⊢
    split at h
    · cases h
    · exact ih _ h

/-- A loop that throws in its `pre` part never reaches what follows. -/
theorem World.forEach_append_thrown {W : Type} (funs : Nat → Listener W)
    (reenter : World W → Outcome (World W)) (pre rest : List Nat) (s : World W) (e : JsError)
    (h : (World.forEach funs reenter pre s).thrown = some e) :
    World.forEach funs reenter (pre ++ rest) s = World.forEach funs reenter pre s := by
  induction pre generalizing s with
  | nil => cases h
  | cons o os ih =>
    rw [List.cons_append, World.forEach_step]
    rw [World.forEach_step] at h ⊢
    split at h
    · rfl
    · exact ih _ h

/-- The loop over listeners that never call `toggleTheme()`: the theme stays, and
the invocations appended are those of an initial segment of the references, in
order, each with the current theme; all of them when nothing is thrown, at
least one when there is a reference.  If moreover no listener writes
`"quantumTheme"` itself, the stored value stays and each entry records it. -/
theorem World.forEach_noToggle {W : Type} (funs : Nat → Listener W)
    (reenter : World W → Outcome (World W)) (os : List Nat) (s : World W)
    (h : ∀ id ∈ os, ∀ arg, (funs id arg).NoToggle) :
    ∃ k, k ≤ os.length ∧ (os = [] ∨ 0 < k) ∧
      ((World.forEach funs reenter os s).thrown = none → k = os.length) ∧
      (World.forEach funs reenter os s).state.theme = s.theme ∧
      (World.forEach funs reenter os s).state.calls.map Invocation.call =
        s.calls.map Invocation.call ++ (os.take k).map (fun id => (id, s.theme)) ∧
      ((∀ id ∈ os, ∀ arg, (funs id arg).NoWrite "quantumTheme") →
        (World.forEach funs reenter os s).state.storage.items "quantumTheme"
          = s.storage.items "quantumTheme" ∧
        (World.forEach funs reenter os s).state.calls =
          s.calls ++ (os.take k).map
            (fun id => ⟨id, s.theme, s.storage.items "quantumTheme"⟩)) := by
  induction os generalizing s with
  | nil =>
    exact ⟨0, le_refl _, Or.inl rfl, fun _ => rfl, rfl, by simp [World.forEach],
      fun _ => ⟨rfl, by simp [World.forEach]⟩⟩
  | cons o rest ih =>
    obtain ⟨ht, hc, _, hst⟩ := Script.run_noToggle reenter (funs o s.theme)
      (h o (List.mem_cons_self _ _) s.theme)
      { s with calls := s.calls ++ [⟨o, s.theme, s.storage.items "quantumTheme"⟩] }
    rw [World.forEach_step]
    split
    · rename_i e heq
      refine ⟨1, by simp, Or.inr Nat.one_pos, ?_, ht, ?_, ?_⟩
      · intro hn
        cases hn
      · simp only []
        rw [hc]
        simp [Invocation.call]
      · intro hw
        refine ⟨hst _ (hw o (List.mem_cons_self _ _) s.theme), ?_⟩
        simp only []
        rw [hc]
        simp
    · rename_i heq
      obtain ⟨k, hk, _, hall, hth, hcalls, hwr⟩ := ih
        ((funs o s.theme).run reenter
          { s with calls :=
              s.calls ++ [⟨o, s.theme, s.storage.items "quantumTheme"⟩] }).state
        (fun id hid => h id (List.mem_cons_of_mem _ hid))
      refine ⟨k + 1, by simpa using hk, Or.inr (Nat.succ_pos k), ?_, ?_, ?_, ?_⟩
      · intro hn
        rw [hall hn]
        rfl
      · rw [hth, ht]
      · rw [hcalls, hc, ht]
        simp [Invocation.call]
      · intro hw
        obtain ⟨hs1, hs2⟩ := hwr (fun id hid => hw id (List.mem_cons_of_mem _ hid))
        have hst2 := hst _ (hw o (List.mem_cons_self _ _) s.theme)
        refine ⟨?_, ?_⟩
        · rw [hs1, hst2]
        · rw [hs2, hc, ht, hst2]
          simp

/-- Running a body only appends to the invocation log, provided the re-entered
call only appends. -/
theorem Script.run_calls_grow {W : Type} (reenter : World W → Outcome (World W))
    (hre : ∀ s, ∃ extra, (reenter s).state.calls = s.calls ++ extra)
    (sc : Script W) (s : World W) :
    ∃ extra, (sc.run reenter s).state.calls = s.calls ++ extra := by
  induction sc generalizing s with
  | done => exact ⟨[], by simp [Script.run]⟩
  | throw e => exact ⟨[], by simp [Script.run]⟩
  | readPage k ih => exact ih s.page s
  | writePage page k ih => exact ih { s with page := page }
  | readTheme k ih => exact ih s.theme s
  | toggleTheme k ih =>
    obtain ⟨x1, h1⟩ := hre s
    obtain ⟨x2, h2⟩ := ih (reenter s).thrown (reenter s).state
    refine ⟨x1 ++ x2, ?_⟩
    rw [Script.run, h2, h1, List.append_assoc]
  | subscribe observer k ih => exact ih { s with observers := s.observers ++ [observer] }
  | getItem key k ih => exact ih (s.storage.getItem key) s
  | setItem key value k ih =>
    rcases hset : s.storage.setItem key value with e | st
    · obtain ⟨x, hx⟩ := ih (some e) s
      refine ⟨x, ?_⟩
      rw [Script.run, hset]
      exact hx
    · obtain ⟨x, hx⟩ := ih none { s with storage := st }
      refine ⟨x, ?_⟩
      rw [Script.run, hset]
      exact hx
  | removeItem key k ih => exact ih { s with storage := s.storage.removeItem key }

/-- The loop only appends to the invocation log, provided the re-entered call only
appends. -/
theorem World.forEach_calls_grow {W : Type} (funs : Nat → Listener W)
    (reenter : World W → Outcome (World W))
    (hre : ∀ s, ∃ extra, (reenter s).state.calls = s.calls ++ extra)
    (os : List Nat) (s : World W) :
    ∃ extra, (World.forEach funs reenter os s).state.calls = s.calls ++ extra := by
  induction os generalizing s with
  | nil => exact ⟨[], by simp [World.forEach]⟩
  | cons o rest ih =>
    obtain ⟨x1, h1⟩ := Script.run_calls_grow reenter hre (funs o s.theme)
      { s with calls := s.calls ++ [⟨o, s.theme, s.storage.items "quantumTheme"⟩] }
    rw [World.forEach_step]
    split
    · refine ⟨⟨o, s.theme, s.storage.items "quantumTheme"⟩ :: x1, ?_⟩
      simp only []
      rw [h1]
      simp
    · obtain ⟨x2, h2⟩ := ih ((funs o s.theme).run reenter
        { s with calls :=
            s.calls ++ [⟨o, s.theme, s.storage.items "quantumTheme"⟩] }).state
      refine ⟨⟨o, s.theme, s.storage.items "quantumTheme"⟩ :: (x1 ++ x2), ?_⟩
      rw [h2, h1]
      simp

/-- A loop with a first reference appends the entry of that reference first, then
possibly more, provided the re-entered call only appends. -/
theorem World.forEach_cons_calls {W : Type} (funs : Nat → Listener W)
    (reenter : World W → Outcome (World W))
    (hre : ∀ s, ∃ extra, (reenter s).state.calls = s.calls ++ extra)
    (o : Nat) (rest : List Nat) (s : World W) :
    ∃ extra, (World.forEach funs reenter (o :: rest) s).state.calls =
      s.calls ++ ⟨o, s.theme, s.storage.items "quantumTheme"⟩ :: extra := by
  obtain ⟨x1, h1⟩ := Script.run_calls_grow reenter hre (funs o s.theme)
    { s with calls := s.calls ++ [⟨o, s.theme, s.storage.items "quantumTheme"⟩] }
  rw [World.forEach_step]
  split
  · refine ⟨x1, ?_⟩
    simp only []
    rw [h1]
    simp
  · obtain ⟨x2, h2⟩ := World.forEach_calls_grow funs reenter hre rest
      ((funs o s.theme).run reenter
        { s with calls :=
            s.calls ++ [⟨o, s.theme, s.storage.items "quantumTheme"⟩] }).state
    refine ⟨x1 ++ x2, ?_⟩
    rw [h2, h1]
    simp

/-- The first entry a loop appends is that of the first reference, made with the
theme and the stored value of the moment the loop starts. -/
theorem World.forEach_calls_head {W : Type} (funs : Nat → Listener W)
    (reenter : World W → Outcome (World W))
    (hre : ∀ s, ∃ extra, (reenter s).state.calls = s.calls ++ extra)
    (os : List Nat) (s : World W) :
    ((World.forEach funs reenter os s).state.calls.drop s.calls.length).head? =
      os.head?.map (fun id => ⟨id, s.theme, s.storage.items "quantumTheme"⟩) := by
  cases os with
  | nil => simp [World.forEach]
  | cons o rest =>
    obtain ⟨x, hx⟩ := World.forEach_cons_calls funs reenter hre o rest s
    rw [hx, List.drop_left]
    rfl

/-- The outcome of `toggleTheme()` when the write throws. -/
theorem World.toggleTheme_refused {W : Type} (funs : Nat → Listener W) (depth : Nat)
    (s : World W) (e : JsError)
    (h : s.storage.setItem "quantumTheme" (if s.theme = "dark" then "light" else "dark")
      = .error e) :
    World.toggleTheme funs (depth + 1) s =
      ⟨some e, { s with theme := if s.theme = "dark" then "light" else "dark" }⟩ := by
  rw [World.toggleTheme]
  simp only []
  rw [h]

/-- The outcome of `toggleTheme()` when the write does not throw. -/
theorem World.toggleTheme_accepted {W : Type} (funs : Nat → Listener W) (depth : Nat)
    (s : World W) (st : LocalStorage)
    (h : s.storage.setItem "quantumTheme" (if s.theme = "dark" then "light" else "dark")
      = .ok st) :
    World.toggleTheme funs (depth + 1) s =
      World.forEach funs (World.toggleTheme funs depth) s.observers
        { s with theme := if s.theme = "dark" then "light" else "dark", storage := st } := by
  rw [World.toggleTheme]
  simp only []
  rw [h]

/-- A `toggleTheme()` call, nested calls included, only appends to the invocation
log. -/
theorem World.toggleTheme_calls_grow {W : Type} (funs : Nat → Listener W) (depth : Nat)
    (s : World W) :
    ∃ extra, (World.toggleTheme funs depth s).state.calls = s.calls ++ extra := by
  induction depth generalizing s with
  | zero => exact ⟨[], by simp [World.toggleTheme]⟩
  | succ depth ih =>
    rcases hset : s.storage.setItem "quantumTheme"
        (if s.theme = "dark" then "light" else "dark") with e | st
    · rw [World.toggleTheme_refused funs depth s e hset]
      exact ⟨[], by simp⟩
    · rw [World.toggleTheme_accepted funs depth s st hset]
      exact World.forEach_calls_grow funs _ ih _ _

/-- A `toggleTheme()` whose write succeeds, over listeners that never call
`toggleTheme()` themselves: the theme is the new one, and the invocations
appended are those of an initial segment of the observers, in order, each with
the new theme; all of them when nothing is thrown, at least one when there is an
observer.  If moreover no listener writes `"quantumTheme"` itself, the new theme
is the stored value at the end and at every invocation. -/
theorem World.toggleTheme_noToggle {W : Type} (funs : Nat → Listener W) (depth : Nat)
    (s : World W) (st : LocalStorage)
    (hset : s.storage.setItem "quantumTheme" (if s.theme = "dark" then "light" else "dark")
      = .ok st)
    (h : ∀ id ∈ s.observers, ∀ arg, (funs id arg).NoToggle) :
    ∃ k, k ≤ s.observers.length ∧ (s.observers = [] ∨ 0 < k) ∧
      ((World.toggleTheme funs (depth + 1) s).thrown = none → k = s.observers.length) ∧
      (World.toggleTheme funs (depth + 1) s).state.theme
        = (if s.theme = "dark" then "light" else "dark") ∧
      (World.toggleTheme funs (depth + 1) s).state.calls.map Invocation.call =
        s.calls.map Invocation.call ++ (s.observers.take k).map
          (fun id => (id, if s.theme = "dark" then "light" else "dark")) ∧
      ((∀ id ∈ s.observers, ∀ arg, (funs id arg).NoWrite "quantumTheme") →
        (World.toggleTheme funs (depth + 1) s).state.storage.items "quantumTheme"
          = some (if s.theme = "dark" then "light" else "dark") ∧
        (World.toggleTheme funs (depth + 1) s).state.calls =
          s.calls ++ (s.observers.take k).map
            (fun id => ⟨id, if s.theme = "dark" then "light" else "dark",
              some (if s.theme = "dark" then "light" else "dark")⟩)) := by
  have hst := LocalStorage.setItem_items _ _ _ _ hset
  obtain ⟨k, hk, hpos, hall, hth, hcalls, hwr⟩ := World.forEach_noToggle funs
    (World.toggleTheme funs depth) s.observers
    { s with theme := if s.theme = "dark" then "light" else "dark", storage := st } h
  rw [World.toggleTheme_accepted funs depth s st hset]
  refine ⟨k, hk, hpos, hall, hth, hcalls, fun hw => ?_⟩
  obtain ⟨h1, h2⟩ := hwr hw
  refine ⟨?_, ?_⟩
  · rw [h1]
    exact hst
  · rw [h2]
    simp only [hst]

/-- The first invocation of a `toggleTheme()` whose write succeeds is that of the
first observer, with the new theme as argument and already stored. -/
theorem World.toggleTheme_calls_head {W : Type} (funs : Nat → Listener W) (depth : Nat)
    (s : World W) (st : LocalStorage)
    (hset : s.storage.setItem "quantumTheme" (if s.theme = "dark" then "light" else "dark")
      = .ok st) :
    ((World.toggleTheme funs (depth + 1) s).state.calls.drop s.calls.length).head? =
      s.observers.head?.map (fun id =>
        ⟨id, if s.theme = "dark" then "light" else "dark",
         some (if s.theme = "dark" then "light" else "dark")⟩) := by
  have hst := LocalStorage.setItem_items _ _ _ _ hset
  have h := World.forEach_calls_head funs (World.toggleTheme funs depth)
    (World.toggleTheme_calls_grow funs depth) s.observers
    { s with theme := if s.theme = "dark" then "light" else "dark", storage := st }
  rw [World.toggleTheme_accepted funs depth s st hset]
  simp only [hst] at h
  exact h

/-- Running a body keeps a valid theme valid, provided the re-entered call does. -/
theorem Script.run_theme_valid {W : Type} (reenter : World W → Outcome (World W))
    (hre : ∀ s, (s.theme = "dark" ∨ s.theme = "light") →
      ((reenter s).state.theme = "dark" ∨ (reenter s).state.theme = "light"))
    (sc : Script W) (s : World W) (h : s.theme = "dark" ∨ s.theme = "light") :
    (sc.run reenter s).state.theme = "dark" ∨ (sc.run reenter s).state.theme = "light" := by
  induction sc generalizing s with
  | done => exact h
  | throw e => exact h
  | readPage k ih => exact ih s.page s h
  | writePage page k ih => exact ih { s with page := page } h
  | readTheme k ih => exact ih s.theme s h
  | toggleTheme k ih => exact ih (reenter s).thrown (reenter s).state (hre s h)
  | subscribe observer k ih => exact ih { s with observers := s.observers ++ [observer] } h
  | getItem key k ih => exact ih (s.storage.getItem key) s h
  | setItem key value k ih =>
    rcases hset : s.storage.setItem key value with e | st
    · rw [Script.run, hset]
      exact ih (some e) s h
    · rw [Script.run, hset]
      exact ih none { s with storage := st } h
  | removeItem key k ih => exact ih { s with storage := s.storage.removeItem key } h

/-- The loop keeps a valid theme valid, provided the re-entered call does. -/
theorem World.forEach_theme_valid {W : Type} (funs : Nat → Listener W)
    (reenter : World W → Outcome (World W))
    (hre : ∀ s, (s.theme = "dark" ∨ s.theme = "light") →
      ((reenter s).state.theme = "dark" ∨ (reenter s).state.theme = "light"))
    (os : List Nat) (s : World W) (h : s.theme = "dark" ∨ s.theme = "light") :
    (World.forEach funs reenter os s).state.theme = "dark" ∨
    (World.forEach funs reenter os s).state.theme = "light" := by
  induction os generalizing s with
  | nil => exact h
  | cons o rest ih =>
    have h1 := Script.run_theme_valid reenter hre (funs o s.theme)
      { s with calls := s.calls ++ [⟨o, s.theme, s.storage.items "quantumTheme"⟩] } h
    rw [World.forEach_step]
    split
    · exact h1
    · exact ih _ h1

/-- With listeners that call `toggleTheme()` themselves, nested calls only add
flips: a valid theme stays valid under any call, and after a call that had room
on the stack the theme is valid whatever it was before. -/
theorem World.toggleTheme_theme_valid {W : Type} (funs : Nat → Listener W) (depth : Nat)
    (s : World W) :
    ((s.theme = "dark" ∨ s.theme = "light") →
      ((World.toggleTheme funs depth s).state.theme = "dark" ∨
       (World.toggleTheme funs depth s).state.theme = "light")) ∧
    ((World.toggleTheme funs (depth + 1) s).state.theme = "dark" ∨
     (World.toggleTheme funs (depth + 1) s).state.theme = "light") := by
  induction depth generalizing s with
  | zero =>
    refine ⟨fun h => h, ?_⟩
    rcases hset : s.storage.setItem "quantumTheme"
        (if s.theme = "dark" then "light" else "dark") with e | st
    · rw [World.toggleTheme_refused funs 0 s e hset]
      exact flipped_valid _
    · rw [World.toggleTheme_accepted funs 0 s st hset]
      exact World.forEach_theme_valid funs _ (fun _ h => h) _ _ (flipped_valid _)
  | succ depth ih =>
    refine ⟨fun _ => (ih s).2, ?_⟩
    rcases hset : s.storage.setItem "quantumTheme"
        (if s.theme = "dark" then "light" else "dark") with e | st
    · rw [World.toggleTheme_refused funs (depth + 1) s e hset]
      exact flipped_valid _
    · rw [World.toggleTheme_accepted funs (depth + 1) s st hset]
      exact World.forEach_theme_valid funs _ (fun s2 _ => (ih s2).2) _ _ (flipped_valid _)

/-! ## Notification -/

/-- Successive `subscribe` calls append the references in call order and change
nothing else. -/
theorem World.foldl_subscribe {W : Type} (os : List Nat) (s : World W) :
    (os.foldl World.subscribe s).observers = s.observers ++ os ∧
    (os.foldl World.subscribe s).theme = s.theme ∧
    (os.foldl World.subscribe s).storage = s.storage ∧
    (os.foldl World.subscribe s).calls = s.calls := by
  induction os generalizing s with
  | nil => simp
  | cons o os ih =>
    rw [List.foldl_cons]
    obtain ⟨h1, h2, h3, h4⟩ := ih (s.subscribe o)
    rw [h1, h2, h3, h4]
    simp [World.subscribe]

/-- None of the sample listeners 2, 3, 6 and 7 calls `toggleTheme()`. -/
theorem sampleListeners_noToggle (id : Nat) (h : id ∈ [2, 3, 6, 7]) (arg : String) :
    (sampleListeners id arg).NoToggle := by
  simp only [List.mem_cons, List.mem_singleton, List.not_mem_nil, or_false] at h
  rcases h with rfl | rfl | rfl | rfl <;> simp [sampleListeners, Script.NoToggle]

/-- None of the sample listeners 2, 3 and 7 writes `"quantumTheme"`. -/
theorem sampleListeners_noWrite (id : Nat) (h : id ∈ [2, 3, 7]) (arg : String) :
    (sampleListeners id arg).NoWrite "quantumTheme" := by
  simp only [List.mem_cons, List.mem_singleton, List.not_mem_nil, or_false] at h
  rcases h with rfl | rfl | rfl <;> simp [sampleListeners, Script.NoWrite]

/-- C3, counterexample.  First: listener 2, which never throws, is subscribed to a
fresh store and `toggleTheme()` is called while the storage refuses the write;
no listener throws, yet none is invoked.  Second: listeners 1 and 2 are
subscribed to a fresh `"dark"` store on a working storage, listener 1 calling
`toggleTheme()` itself when it is handed `"light"`; the call returns normally,
the write succeeded and nobody threw, yet the invocations are 1 with `"light"`,
1 with `"dark"`, 2 with `"dark"`, 2 with `"dark"`: listener 2 runs twice and is
never handed the new theme `"light"`. -/
theorem invocations_not_the_subscription_list :
    (World.toggleTheme sampleListeners 8
        ((⟨"dark", [], false, storageFull none, (), []⟩ : World Unit).subscribe 2)).thrown
      = some .quotaExceededError ∧
    (World.toggleTheme sampleListeners 8
        ((⟨"dark", [], false, storageFull none, (), []⟩ : World Unit).subscribe 2)).state.calls
      = [] ∧
    (World.toggleTheme sampleListeners 8
        ([1, 2].foldl World.subscribe
          (⟨"dark", [], false, storageWith none, (), []⟩ : World Unit))).thrown = none ∧
    (World.toggleTheme sampleListeners 8
        ([1, 2].foldl World.subscribe
          (⟨"dark", [], false, storageWith none, (), []⟩ : World Unit))).state.calls
      = [⟨1, "light", some "light"⟩, ⟨1, "dark", some "dark"⟩,
         ⟨2, "dark", some "dark"⟩, ⟨2, "dark", some "dark"⟩] ∧
    (World.toggleTheme sampleListeners 8
        ([1, 2].foldl World.subscribe
          (⟨"dark", [], false, storageWith none, (), []⟩ : World Unit))).state.calls.map
        Invocation.call
      ≠ [1, 2].map (fun id => (id, "light")) := by
  refine ⟨rfl, rfl, rfl, rfl, by decide⟩

/-- C3, amended: let the references `os` be subscribed in order to a store without
observers, and let `toggleTheme()` be called with the storage accepting the
write, no listener throwing, and no listener of `os` calling `toggleTheme()`
itself.  Then the observers of the store are exactly `os`, the theme is the
new one, and the invocations made by the call are exactly those of `os` in
order, one per occurrence, each with the new theme as argument.  A listener
subscribed after the call returns joins the observers without being invoked. -/
theorem toggleTheme_notifies_in_order {W : Type} (funs : Nat → Listener W) (depth : Nat)
    (s0 : World W) (os : List Nat) (late : Nat)
    (hs0 : s0.observers = [])
    (hw : s0.storage.writeFails "quantumTheme" (if s0.theme = "dark" then "light" else "dark")
      = false)
    (hnt : ∀ id ∈ os, ∀ arg, (funs id arg).NoToggle)
    (hno : (World.toggleTheme funs (depth + 1) (os.foldl World.subscribe s0)).thrown = none) :
    (os.foldl World.subscribe s0).observers = os ∧
    (World.toggleTheme funs (depth + 1) (os.foldl World.subscribe s0)).state.theme
      = (if s0.theme = "dark" then "light" else "dark") ∧
    (World.toggleTheme funs (depth + 1) (os.foldl World.subscribe s0)).state.calls.map
        Invocation.call
      = s0.calls.map Invocation.call ++
        os.map (fun id => (id, if s0.theme = "dark" then "light" else "dark")) ∧
    late ∈ ((World.toggleTheme funs (depth + 1)
        (os.foldl World.subscribe s0)).state.subscribe late).observers ∧
    ((World.toggleTheme funs (depth + 1)
        (os.foldl World.subscribe s0)).state.subscribe late).calls
      = (World.toggleTheme funs (depth + 1) (os.foldl World.subscribe s0)).state.calls := by
  obtain ⟨hobs, hth, hsto, hcl⟩ := World.foldl_subscribe os s0
  rw [hs0, List.nil_append] at hobs
  have hw2 : (os.foldl World.subscribe s0).storage.writeFails "quantumTheme"
      (if (os.foldl World.subscribe s0).theme = "dark" then "light" else "dark") = false := by
    rw [hsto, hth]
    exact hw
  obtain ⟨k, _, _, hall, hth2, hcalls, _⟩ := World.toggleTheme_noToggle funs depth
    (os.foldl World.subscribe s0) _ (LocalStorage.setItem_accepted _ _ _ hw2)
    (by rw [hobs]; exact hnt)
  refine ⟨hobs, ?_, ?_, by simp [World.subscribe], rfl⟩
  · rw [hth2, hth]
  · rw [hcalls, hall hno, List.take_length, hcl, hth, hobs]

/-- Concrete instance: listener 7 (writes another key and subscribes listener 2
during the call) and listener 2 twice, on a fresh `"dark"` store. -/
theorem toggleTheme_notifies_in_order_witness :
    (World.toggleTheme sampleListeners 1
        ([7, 2, 2].foldl World.subscribe
          (⟨"dark", [], false, storageWith none, (), []⟩ : World Unit))).state.calls.map
        Invocation.call
      = ([] : List Invocation).map Invocation.call ++
        [7, 2, 2].map (fun id => (id, if "dark" = "dark" then "light" else "dark")) :=
  (toggleTheme_notifies_in_order sampleListeners 0
    ⟨"dark", [], false, storageWith none, (), []⟩ [7, 2, 2] 9 rfl rfl
    (fun id hid arg => sampleListeners_noToggle id (by
      simp only [List.mem_cons, List.mem_singleton, List.not_mem_nil, or_false] at hid ⊢
      rcases hid with rfl | rfl | rfl <;> simp) arg)
    rfl).2.2.1

/-- C5, counterexample.  First: the theme is `"light"`, the host stores `"dark"` but
refuses `"light"`, and listener 5 calls `toggleTheme()` inside `try`/`catch`;
the write of the call succeeds and the call returns normally, yet afterwards
the theme is `"light"` while the stored value is `"dark"`.  Second: listener 6
removes the entry; the write succeeds and the call returns normally, yet
afterwards the theme is `"light"` while nothing is stored. -/
theorem stored_value_differs_from_theme :
    (storageRejecting (some "light") "light").setItem "quantumTheme" "dark"
      = .ok { storageRejecting (some "light") "light" with
              items := fun k => if k = "quantumTheme" then some "dark"
                else (storageRejecting (some "light") "light").items k } ∧
    (World.toggleTheme sampleListeners 8
        (⟨"light", [5], false, storageRejecting (some "light") "light", (), []⟩ :
          World Unit)).thrown = none ∧
    (World.toggleTheme sampleListeners 8
        (⟨"light", [5], false, storageRejecting (some "light") "light", (), []⟩ :
          World Unit)).state.theme = "light" ∧
    (World.toggleTheme sampleListeners 8
        (⟨"light", [5], false, storageRejecting (some "light") "light", (), []⟩ :
          World Unit)).state.storage.items "quantumTheme" = some "dark" ∧
    (World.toggleTheme sampleListeners 8
        (⟨"dark", [6], false, storageWith none, (), []⟩ : World Unit)).thrown = none ∧
    (World.toggleTheme sampleListeners 8
        (⟨"dark", [6], false, storageWith none, (), []⟩ : World Unit)).state.theme = "light" ∧
    (World.toggleTheme sampleListeners 8
        (⟨"dark", [6], false, storageWith none, (), []⟩ : World Unit)).state.storage.items
        "quantumTheme" = none ∧
    some "dark" ≠ some "light" := by
  refine ⟨rfl, rfl, rfl, rfl, rfl, rfl, rfl, by decide⟩

/-- C5, amended: let `toggleTheme()` be called with the storage accepting the write.
Whatever the listeners do, the first invocation of the call (if the store has
observers) is that of the first observer, with the new theme as argument and
the new theme already stored: persistence precedes notification.  If moreover
no listener calls `toggleTheme()` or writes `"quantumTheme"` itself, then after
the call, whether or not a listener threw, the theme is the new one, the stored
value equals the theme, and every invocation of the call had the new theme as
argument and found it stored. -/
theorem toggleTheme_persists_before_notifying {W : Type} (funs : Nat → Listener W)
    (depth : Nat) (s : World W)
    (hw : s.storage.writeFails "quantumTheme" (if s.theme = "dark" then "light" else "dark")
      = false) :
    ((World.toggleTheme funs (depth + 1) s).state.calls.drop s.calls.length).head? =
      s.observers.head?.map (fun id =>
        ⟨id, if s.theme = "dark" then "light" else "dark",
         some (if s.theme = "dark" then "light" else "dark")⟩) ∧
    ((∀ id ∈ s.observers, ∀ arg,
        (funs id arg).NoToggle ∧ (funs id arg).NoWrite "quantumTheme") →
      (World.toggleTheme funs (depth + 1) s).state.theme
        = (if s.theme = "dark" then "light" else "dark") ∧
      (World.toggleTheme funs (depth + 1) s).state.storage.items "quantumTheme"
        = some (World.toggleTheme funs (depth + 1) s).state.theme ∧
      ∀ c ∈ (World.toggleTheme funs (depth + 1) s).state.calls.drop s.calls.length,
        c.arg = (if s.theme = "dark" then "light" else "dark") ∧
        c.persisted = some (if s.theme = "dark" then "light" else "dark")) := by
  have hset := LocalStorage.setItem_accepted s.storage "quantumTheme" _ hw
  constructor
  · exact World.toggleTheme_calls_head funs depth s _ hset
  · intro h
    obtain ⟨k, _, _, _, hth, _, hwr⟩ := World.toggleTheme_noToggle funs depth s _ hset
      (fun id hid arg => (h id hid arg).1)
    obtain ⟨h1, h2⟩ := hwr (fun id hid arg => (h id hid arg).2)
    refine ⟨hth, ?_, ?_⟩
    · rw [h1, hth]
    · intro c hc
      rw [h2, List.drop_left] at hc
      obtain ⟨id, _, hid⟩ := List.mem_map.mp hc
      rw [← hid]
      exact ⟨rfl, rfl⟩

/-- Concrete instance: a `"dark"` store on a working storage with listeners 7
(writes another key, subscribes listener 2), 3 (throws) and 2. -/
theorem toggleTheme_persists_before_notifying_witness :
    ((World.toggleTheme sampleListeners 1
        (⟨"dark", [7, 3, 2], false, storageWith none, (), []⟩ : World Unit)).state.calls.drop
        ([] : List Invocation).length).head?
      = ([7, 3, 2] : List Nat).head?.map (fun id =>
          ⟨id, if "dark" = "dark" then "light" else "dark",
           some (if "dark" = "dark" then "light" else "dark")⟩) ∧
    (World.toggleTheme sampleListeners 1
        (⟨"dark", [7, 3, 2], false, storageWith none, (), []⟩ : World Unit)).state.storage.items
        "quantumTheme"
      = some (World.toggleTheme sampleListeners 1
        (⟨"dark", [7, 3, 2], false, storageWith none, (), []⟩ : World Unit)).state.theme :=
  ⟨(toggleTheme_persists_before_notifying sampleListeners 0
      ⟨"dark", [7, 3, 2], false, storageWith none, (), []⟩ rfl).1,
   ((toggleTheme_persists_before_notifying sampleListeners 0
      ⟨"dark", [7, 3, 2], false, storageWith none, (), []⟩ rfl).2
      (fun id hid arg => by
        simp only [List.mem_cons, List.mem_singleton, List.not_mem_nil, or_false] at hid
        rcases hid with rfl | rfl | rfl
        · exact ⟨sampleListeners_noToggle 7 (by simp) arg,
            sampleListeners_noWrite 7 (by simp) arg⟩
        · exact ⟨sampleListeners_noToggle 3 (by simp) arg,
            sampleListeners_noWrite 3 (by simp) arg⟩
        · exact ⟨sampleListeners_noToggle 2 (by simp) arg,
            sampleListeners_noWrite 2 (by simp) arg⟩)).2.1⟩

/-- C6, counterexample: a `"dark"` store on a working storage with listeners 4 and
3, listener 4 calling `toggleTheme()` inside `try`/`catch` when it is handed
`"light"` and listener 3 always throwing.  The write succeeds and the listener
at the second position throws, which ends the call; yet the theme and the
stored value are then both `"dark"`, the old theme, and the listener before
that position was invoked twice. -/
theorem reentrant_listener_undoes_flip :
    (World.toggleTheme sampleListeners 8
        (⟨"dark", [4, 3], false, storageWith none, (), []⟩ : World Unit)).thrown
      = some (.custom "listener failed") ∧
    (World.toggleTheme sampleListeners 8
        (⟨"dark", [4, 3], false, storageWith none, (), []⟩ : World Unit)).state.theme
      = "dark" ∧
    (World.toggleTheme sampleListeners 8
        (⟨"dark", [4, 3], false, storageWith none, (), []⟩ : World Unit)).state.storage.items
        "quantumTheme" = some "dark" ∧
    (World.toggleTheme sampleListeners 8
        (⟨"dark", [4, 3], false, storageWith none, (), []⟩ : World Unit)).state.calls
      = [⟨4, "light", some "light"⟩, ⟨4, "dark", some "dark"⟩,
         ⟨3, "dark", some "dark"⟩, ⟨3, "dark", some "dark"⟩] ∧
    (if "dark" = "dark" then "light" else "dark") ≠ "dark" := by
  refine ⟨rfl, rfl, rfl, rfl, by decide⟩

/-- C6, amended: `toggleTheme()` neither catches nor rolls back.  If the storage
write throws `e`, the call throws `e`, the theme is already the new one, and
everything else (stored value, page, observers, invocation log) is exactly as
before, so no listener was invoked; this holds for all listeners.  If the write
succeeds, the listeners before some position throw nothing, the listener at
that position throws `e`, and none of the listeners up to that position calls
`toggleTheme()` or writes `"quantumTheme"` itself, then the call throws `e`,
the theme and the stored value are the new theme, and the invocations made are
exactly those of the listeners up to and including that position, in order,
once each: none after it. -/
theorem toggleTheme_no_rollback {W : Type} (funs : Nat → Listener W) (depth : Nat)
    (s : World W) :
    (∀ e, s.storage.setItem "quantumTheme" (if s.theme = "dark" then "light" else "dark")
        = .error e →
      World.toggleTheme funs (depth + 1) s =
        ⟨some e, { s with theme := if s.theme = "dark" then "light" else "dark" }⟩) ∧
    (∀ st pre o post e,
      s.storage.setItem "quantumTheme" (if s.theme = "dark" then "light" else "dark")
        = .ok st →
      s.observers = pre ++ o :: post →
      (∀ id ∈ pre ++ [o], ∀ arg,
        (funs id arg).NoToggle ∧ (funs id arg).NoWrite "quantumTheme") →
      (World.forEach funs (World.toggleTheme funs depth) pre
        { s with theme := if s.theme = "dark" then "light" else "dark", storage := st }).thrown
        = none →
      (World.forEach funs (World.toggleTheme funs depth) (pre ++ [o])
        { s with theme := if s.theme = "dark" then "light" else "dark", storage := st }).thrown
        = some e →
      (World.toggleTheme funs (depth + 1) s).thrown = some e ∧
      (World.toggleTheme funs (depth + 1) s).state.theme
        = (if s.theme = "dark" then "light" else "dark") ∧
      (World.toggleTheme funs (depth + 1) s).state.storage.items "quantumTheme"
        = some (if s.theme = "dark" then "light" else "dark") ∧
      (World.toggleTheme funs (depth + 1) s).state.calls =
        s.calls ++ (pre ++ [o]).map (fun id =>
          ⟨id, if s.theme = "dark" then "light" else "dark",
           some (if s.theme = "dark" then "light" else "dark")⟩)) := by
  constructor
  · intro e hset
    exact World.toggleTheme_refused funs depth s e hset
  · intro st pre o post e hset hobs hq hpre hthrow
    have hst := LocalStorage.setItem_items _ _ _ _ hset
    have hsplit : pre ++ o :: post = (pre ++ [o]) ++ post := by simp
    have hloop : World.forEach funs (World.toggleTheme funs depth) s.observers
          { s with theme := if s.theme = "dark" then "light" else "dark", storage := st }
        = World.forEach funs (World.toggleTheme funs depth) (pre ++ [o])
          { s with theme := if s.theme = "dark" then "light" else "dark", storage := st } := by
      conv_lhs =>
        arg 3
        rw [hobs, hsplit]
      exact World.forEach_append_thrown funs _ (pre ++ [o]) post _ e hthrow
    rw [World.toggleTheme_accepted funs depth s st hset, hloop]
    obtain ⟨k, hk, hpos, _, hth, _, hwr⟩ := World.forEach_noToggle funs
      (World.toggleTheme funs depth) (pre ++ [o])
      { s with theme := if s.theme = "dark" then "light" else "dark", storage := st }
      (fun id hid arg => (hq id hid arg).1)
    obtain ⟨h1, h2⟩ := hwr (fun id hid arg => (hq id hid arg).2)
    obtain ⟨k2, _, _, hall2, _, _, hwr2⟩ := World.forEach_noToggle funs
      (World.toggleTheme funs depth) pre
      { s with theme := if s.theme = "dark" then "light" else "dark", storage := st }
      (fun id hid arg => (hq id (List.mem_append_left _ hid) arg).1)
    obtain ⟨_, h4⟩ := hwr2 (fun id hid arg => (hq id (List.mem_append_left _ hid) arg).2)
    have hk2 := hall2 hpre
    -- the loop over `pre ++ [o]` logs at least as much as the loop over `pre` and one more
    have hlen : k = pre.length + 1 := by
      have hA := World.forEach_append funs (World.toggleTheme funs depth) pre [o] _ hpre
      obtain ⟨x, hx⟩ := World.forEach_cons_calls funs (World.toggleTheme funs depth)
        (World.toggleTheme_calls_grow funs depth) o []
        (World.forEach funs (World.toggleTheme funs depth) pre
          { s with theme := if s.theme = "dark" then "light" else "dark",
                   storage := st }).state
      rw [← hA, h2, h4, hk2, List.take_length] at hx
      have hcount := congrArg List.length hx
      simp at hk hcount
      omega
    refine ⟨hthrow, hth, ?_, ?_⟩
    · rw [h1]
      exact hst
    · rw [h2, hlen]
      have : (pre ++ [o]).take (pre.length + 1) = pre ++ [o] := by
        rw [List.take_of_length_le]
        simp
      rw [this]
      simp only [hst]

/-- Concrete instance: on a storage that refuses writes the call throws and only the
theme changes; on a working storage with listeners 2, 3 (throwing), 2 the call
throws after invoking the first two only. -/
theorem toggleTheme_no_rollback_witness :
    World.toggleTheme sampleListeners 1
        (⟨"dark", [2], false, storageFull (some "dark"), (), []⟩ : World Unit)
      = ⟨some .quotaExceededError,
         { (⟨"dark", [2], false, storageFull (some "dark"), (), []⟩ : World Unit) with
           theme := if "dark" = "dark" then "light" else "dark" }⟩ ∧
    (World.toggleTheme sampleListeners 1
        (⟨"light", [2, 3, 2], false, storageWith none, (), []⟩ : World Unit)).state.calls
      = [] ++ ([2] ++ [3]).map (fun id =>
          ⟨id, if "light" = "dark" then "light" else "dark",
           some (if "light" = "dark" then "light" else "dark")⟩) :=
  ⟨(toggleTheme_no_rollback sampleListeners 0
      (⟨"dark", [2], false, storageFull (some "dark"), (), []⟩ : World Unit)).1
      .quotaExceededError rfl,
   ((toggleTheme_no_rollback sampleListeners 0
      (⟨"light", [2, 3, 2], false, storageWith none, (), []⟩ : World Unit)).2
      { items := fun k => if k = "quantumTheme" then some "dark" else
          (storageWith none).items k
        readFails := false
        writeFails := fun _ _ => false }
      [2] 3 [2] (.custom "listener failed") rfl rfl
      (fun id hid arg => by
        simp only [List.cons_append, List.nil_append, List.mem_cons, List.mem_singleton,
          List.not_mem_nil, or_false] at hid
        rcases hid with rfl | rfl
        · exact ⟨sampleListeners_noToggle 2 (by simp) arg,
            sampleListeners_noWrite 2 (by simp) arg⟩
        · exact ⟨sampleListeners_noToggle 3 (by simp) arg,
            sampleListeners_noWrite 3 (by simp) arg⟩)
      rfl rfl).2.2.2⟩

/-! ## Page-only subscribers are a special case -/

/-- Running the body of a page-only subscriber. -/
theorem Observer.script_run {W : Type} (o : Observer W) (arg : String)
    (reenter : World W → Outcome (World W)) (s : World W) :
    (o.script arg).run reenter s =
      ⟨(o.call arg s.page).1, { s with page := (o.call arg s.page).2 }⟩ := by
  unfold Observer.script
  rw [Script.run, Script.run]
  cases (o.call arg s.page).1 <;> rfl

/-- The loop of the general model over the references of page-only subscribers does
what the loop over the subscribers does. -/
theorem World.forEach_of {W : Type} (funs : Nat → Listener W)
    (reenter : World W → Outcome (World W)) (os : List (Observer W))
    (hf : ∀ o ∈ os, funs o.id = o.script)
    (theme : String) (ids : List Nat) (anim : Bool) (rt : Runtime W) :
    World.forEach funs reenter (os.map (fun o => o.id))
        ⟨theme, ids, anim, rt.storage, rt.page, rt.calls⟩ =
      ⟨(QuantumState.forEach theme os rt).thrown,
       ⟨theme, ids, anim, (QuantumState.forEach theme os rt).state.storage,
        (QuantumState.forEach theme os rt).state.page,
        (QuantumState.forEach theme os rt).state.calls⟩⟩ := by
  induction os generalizing rt with
  | nil => rfl
  | cons o rest ih =>
    rw [List.map_cons, World.forEach_step, QuantumState.forEach_cons,
      hf o (List.mem_cons_self _ _), Observer.script_run]
    rcases hcall : o.call theme rt.page with ⟨_ | e, page⟩
    · simp only []
      exact ih (fun o2 h2 => hf o2 (List.mem_cons_of_mem _ h2))
        ⟨rt.storage, page, rt.calls ++ [⟨o.id, theme, rt.storage.items "quantumTheme"⟩]⟩
    · rfl

/-- On a store whose observers are page-only subscribers, `toggleTheme()` of the
general model, at any call-stack depth, does what `toggleTheme()` of the
page-only model does. -/
theorem World.toggleTheme_of {W : Type} (funs : Nat → Listener W) (depth : Nat)
    (q : QuantumState W) (rt : Runtime W)
    (hf : ∀ o ∈ q.observers, funs o.id = o.script) :
    World.toggleTheme funs (depth + 1) (World.of q rt) =
      ⟨(q.toggleTheme rt).thrown,
       World.of (q.toggleTheme rt).state.1 (q.toggleTheme rt).state.2⟩ := by
  rcases hset : rt.storage.setItem "quantumTheme"
      (if q.theme = "dark" then "light" else "dark") with e | st
  · rw [QuantumState.toggleTheme_write_error q rt e hset,
      World.toggleTheme_refused funs depth (World.of q rt) e hset]
    rfl
  · rw [QuantumState.toggleTheme_write_ok q rt st hset,
      World.toggleTheme_accepted funs depth (World.of q rt) st hset]
    exact World.forEach_of funs _ q.observers hf _ _ _ ⟨st, rt.page, rt.calls⟩
end Glimmerink
